import Mathlib

/-!
Verification development for the NL2MySQL request-time pipeline.

The Python sources under `src/` are shallowly embedded as executable Lean
functions over `String` / `List Char`.  External collaborators (the
`sqlparse` library, the Groq HTTP endpoint, the vector-search retriever)
are modelled as explicit parameters of the embedded functions, with their
relevant behaviour captured by documented hypotheses.  All embedded
strings are ASCII, matching the ASCII fragment of Python's `str` methods.
-/

namespace NL2MySQL

/-- The apostrophe character, built by code point to keep source scanners happy. -/
def sqc : Char := Char.ofNat 39

/-- The one-character string containing an apostrophe. -/
def sq : String := String.mk [sqc]

/-- The backslash character. -/
def bsc : Char := Char.ofNat 92

/-- Python's `str.upper` on the ASCII fragment. -/
def upperStr (s : String) : String := String.mk (s.data.map Char.toUpper)

/-- Python's `str.lower` on the ASCII fragment. -/
def lowerStr (s : String) : String := String.mk (s.data.map Char.toLower)

/-- Python's `\s` character class: space, tab, newline, carriage return,
form feed, vertical tab. -/
def isWsChar (c : Char) : Bool :=
  c = ' ' || c = '\t' || c = '\n' || c = '\r' || c = Char.ofNat 11 || c = Char.ofNat 12

/-- Python's `str.strip()` (both ends, `\s` whitespace set). -/
def trimWs (s : List Char) : List Char :=
  ((s.dropWhile isWsChar).reverse.dropWhile isWsChar).reverse

/-- The `trimWs` packaged on `String`. -/
def stripStr (s : String) : String := String.mk (trimWs s.data)

/-- Substring test (`needle in hay` for Python `str`). -/
def containsSub (needle : List Char) : List Char → Bool
  | [] => List.isPrefixOf needle []
  | c :: rest => List.isPrefixOf needle (c :: rest) || containsSub needle rest

/-- The `containsSub` packaged on `String`. -/
def containsStr (hay needle : String) : Bool := containsSub needle.data hay.data

/-- Helper for `countSub`: while `skip > 0`, characters are still part of
the previous match and are consumed without testing. -/
def countSubAux (needle : List Char) (skip : Nat) : List Char → Nat
  | [] => 0
  | c :: rest =>
    match skip with
    | k + 1 => countSubAux needle k rest
    | 0 =>
      if needle ≠ [] ∧ List.isPrefixOf needle (c :: rest) then
        1 + countSubAux needle (needle.length - 1) rest
      else
        countSubAux needle 0 rest

/-- Python's `str.count`: number of non-overlapping occurrences, scanning
left to right.  (Never called with an empty needle in this development.) -/
def countSub (needle : List Char) (hay : List Char) : Nat :=
  countSubAux needle 0 hay

/-- The `countSub` packaged on `String`. -/
def countStr (hay needle : String) : Nat := countSub needle.data hay.data

/-- Python's `str.startswith`. -/
def startsWith (s pre : String) : Bool := List.isPrefixOf pre.data s.data

/-- Python's `str.endswith`. -/
def endsWith (s suf : String) : Bool := List.isSuffixOf suf.data s.data

/-- Helper for `replaceStr` (`skip` counts characters of the previous
match still to be consumed). -/
def replaceSubAux (pat rep : List Char) (skip : Nat) : List Char → List Char
  | [] => []
  | c :: rest =>
    match skip with
    | k + 1 => replaceSubAux pat rep k rest
    | 0 =>
      if List.isPrefixOf pat (c :: rest) then
        rep ++ replaceSubAux pat rep (pat.length - 1) rest
      else
        c :: replaceSubAux pat rep 0 rest

/-- Python's `str.replace` for a non-empty pattern (non-overlapping,
left to right).  All call sites in the sources use non-empty patterns. -/
def replaceStr (s pat rep : String) : String :=
  if pat.data = [] then s
  else String.mk (replaceSubAux pat.data rep.data 0 s.data)

/-- Helper for `splitOnStr` (`cur` is the reversed current chunk). -/
def splitSubAux (sep : List Char) (cur : List Char) (skip : Nat) :
    List Char → List (List Char)
  | [] => [cur.reverse]
  | c :: rest =>
    match skip with
    | k + 1 => splitSubAux sep cur k rest
    | 0 =>
      if List.isPrefixOf sep (c :: rest) then
        cur.reverse :: splitSubAux sep [] (sep.length - 1) rest
      else
        splitSubAux sep (c :: cur) 0 rest

/-- Python's `str.split(sep)` for a non-empty separator. -/
def splitOnStr (s sep : String) : List String :=
  if sep.data = [] then [s]
  else (splitSubAux sep.data [] 0 s.data).map String.mk

/-- Python's `sep.join(chunks)`. -/
def joinWith (sep : String) : List String → String
  | [] => ""
  | [x] => x
  | x :: y :: rest => x ++ sep ++ joinWith sep (y :: rest)

/-!  A tiny regular-expression fragment, just large enough for the patterns
appearing in `validator.py` and `optimizer.py`.  Matching is
case-insensitive (all the Python calls pass `re.IGNORECASE`). -/

/-- One atom of a compiled pattern: a literal character, `\s*`, `\s+`,
`.*` (which does not cross a newline, as in Python without `DOTALL`), one
character other than `c`, or zero-or-more characters other than `c` (the
character classes may cross newlines, as in Python). -/
inductive Pat where
  | lit1 (c : Char)
  | ws0
  | ws1
  | dotStar
  | notCh (c : Char)
  | notStar (c : Char)
deriving DecidableEq

/-- Case-insensitive character comparison. -/
def lcEq (a b : Char) : Bool := a.toLower = b.toLower

/-- Compile a literal string to a pattern fragment. -/
def litP (s : String) : List Pat := s.data.map Pat.lit1

/-- Fuelled backtracking matcher: does the pattern match some prefix of
`s`?  Every recursive call strictly decreases `ps.length + s.length` (the
starred atoms either drop themselves or consume a character), so with
fuel `ps.length + s.length + 1` the `0` branch is unreachable and the
function computes exactly the Python `re` anchored-match truthiness. -/
def matchHereF (fuel : Nat) (ps : List Pat) (s : List Char) : Bool :=
  match fuel with
  | 0 => false
  | fuel + 1 =>
    match ps, s with
    | [], _ => true
    | Pat.lit1 _ :: _, [] => false
    | Pat.lit1 a :: ps', b :: s' => lcEq a b && matchHereF fuel ps' s'
    | Pat.ws1 :: _, [] => false
    | Pat.ws1 :: ps', b :: s' => isWsChar b && matchHereF fuel (Pat.ws0 :: ps') s'
    | Pat.ws0 :: ps', s =>
      matchHereF fuel ps' s ||
        (match s with
         | [] => false
         | b :: s' => isWsChar b && matchHereF fuel (Pat.ws0 :: ps') s')
    | Pat.dotStar :: ps', s =>
      matchHereF fuel ps' s ||
        (match s with
         | [] => false
         | b :: s' => decide (b ≠ '\n') && matchHereF fuel (Pat.dotStar :: ps') s')
    | Pat.notCh _ :: _, [] => false
    | Pat.notCh a :: ps', b :: s' => decide (b ≠ a) && matchHereF fuel ps' s'
    | Pat.notStar a :: ps', s =>
      matchHereF fuel ps' s ||
        (match s with
         | [] => false
         | b :: s' => decide (b ≠ a) && matchHereF fuel (Pat.notStar a :: ps') s')

/-- Anchored match with sufficient fuel. -/
def matchHere (ps : List Pat) (s : List Char) : Bool :=
  matchHereF (ps.length + s.length + 1) ps s

/-- Does the pattern match anywhere in `s`?  (`re.search` truthiness.) -/
def searchFrom (ps : List Pat) : List Char → Bool
  | [] => matchHere ps []
  | c :: rest => matchHere ps (c :: rest) || searchFrom ps rest

/-- The `re.search(pattern, s, re.IGNORECASE) is not None`. -/
def reSearch (ps : List Pat) (s : String) : Bool := searchFrom ps s.data

/-!  ## Embedding of `src/validator.py` (`SQLValidator`) -/

/-- The `SQLValidator.DANGEROUS_KEYWORDS`, in declaration order.  The Python
object is a `set`, whose iteration order is arbitrary (hash-randomized), so
functions that iterate over it take the order as an explicit parameter. -/
def DANGEROUS_KEYWORDS : List String :=
  ["DROP", "DELETE", "TRUNCATE", "ALTER", "CREATE", "INSERT", "UPDATE",
   "EXEC", "EXECUTE", "SP_", "XP_", "OPENROWSET", "OPENDATASOURCE",
   "BULK", "BACKUP", "RESTORE", "SHUTDOWN", "RECONFIGURE"]

/-- The `SQLValidator.SYSTEM_OBJECTS` (also a Python set; its iteration order
only affects the order of reported issues, never the risk level, which is
uniformly "high" for every hit — so a fixed order is used here). -/
def SYSTEM_OBJECTS : List String :=
  ["sys.", "information_schema.", "master.", "msdb.", "model.",
   "tempdb.", "sysadmin", "serveradmin", "securityadmin"]

/-- The `SQLValidator.ALLOWED_STATEMENTS`. -/
def ALLOWED_STATEMENTS : List String := ["SELECT", "WITH"]

/-- The `ValidationLevel` enum. -/
inductive ValidationLevel where
  | basic
  | standard
  | strict
deriving DecidableEq

/-- The compiled injection patterns of `_validate_security`, paired with the
pattern source text used in the reported issue message (code order). -/
def injectionPatterns : List (String × List Pat) :=
  [ (";\\s*--", litP ";" ++ [Pat.ws0] ++ litP "--"),
    ("union\\s+select", litP "union" ++ [Pat.ws1] ++ litP "select"),
    (sq ++ "\\s*or\\s+" ++ sq ++ ".*" ++ sq ++ "=" ++ sq,
      [Pat.lit1 sqc, Pat.ws0] ++ litP "or" ++ [Pat.ws1, Pat.lit1 sqc, Pat.dotStar,
        Pat.lit1 sqc, Pat.lit1 '=', Pat.lit1 sqc]),
    (sq ++ "\\s*or\\s+1\\s*=\\s*1",
      [Pat.lit1 sqc, Pat.ws0] ++ litP "or" ++ [Pat.ws1, Pat.lit1 '1', Pat.ws0,
        Pat.lit1 '=', Pat.ws0, Pat.lit1 '1']),
    ("exec\\s*\\(", litP "exec" ++ [Pat.ws0, Pat.lit1 '(']),
    ("char\\s*\\(", litP "char" ++ [Pat.ws0, Pat.lit1 '(']),
    ("cast\\s*\\(", litP "cast" ++ [Pat.ws0, Pat.lit1 '(']) ]

/-- Result of `_validate_security`. -/
structure SecResult where
  issues : List String
  warnings : List String
  risk_level : String
deriving DecidableEq

/-- One iteration of the `DANGEROUS_KEYWORDS` loop in `_validate_security`.
Note that the loop assigns `risk_level` (it does not take a maximum): a
medium-class keyword iterated after a high-class one lowers the level. -/
def secKeywordStep (qU : String) (acc : SecResult) (kw : String) : SecResult :=
  if containsStr qU kw then
    if kw ∈ ["DROP", "DELETE", "TRUNCATE", "ALTER"] then
      { acc with issues := acc.issues ++ ["Dangerous keyword detected: " ++ kw],
                 risk_level := "high" }
    else if kw ∈ ["INSERT", "UPDATE"] then
      { acc with warnings := acc.warnings ++ ["Potentially unsafe keyword: " ++ kw],
                 risk_level := "medium" }
    else
      { acc with issues := acc.issues ++ ["Potentially dangerous keyword: " ++ kw],
                 risk_level := "medium" }
  else acc

/-- One iteration of the `SYSTEM_OBJECTS` loop in `_validate_security`. -/
def secSysStep (query : String) (acc : SecResult) (so : String) : SecResult :=
  if containsStr (lowerStr query) (lowerStr so) then
    { acc with issues := acc.issues ++ ["Access to system object: " ++ so],
               risk_level := "high" }
  else acc

/-- One iteration of the injection-pattern loop in `_validate_security`. -/
def secInjStep (query : String) (acc : SecResult) (pp : String × List Pat) : SecResult :=
  if reSearch pp.2 query then
    { acc with issues := acc.issues ++
        ["Potential SQL injection pattern detected: " ++ pp.1],
               risk_level := "high" }
  else acc

/-- The excessive-wildcard check of `_validate_security`. -/
def secWildcardStep (query : String) (acc : SecResult) : SecResult :=
  if countStr query "*" > 3 then
    { acc with warnings := acc.warnings ++
        ["Excessive use of wildcards (*) may impact performance"] }
  else acc

/-- The UPDATE/DELETE-without-WHERE check of `_validate_security`. -/
def secNoWhereStep (query : String) (acc : SecResult) : SecResult :=
  if (containsStr (upperStr query) "UPDATE" || containsStr (upperStr query) "DELETE")
      && !containsStr (upperStr query) "WHERE" then
    { acc with issues := acc.issues ++ ["UPDATE/DELETE without WHERE clause is dangerous"],
               risk_level := "high" }
  else acc

/-- The `SQLValidator._validate_security`.  `kwOrder` is the iteration order of
the `DANGEROUS_KEYWORDS` set (a permutation of `DANGEROUS_KEYWORDS`). -/
def validate_security (kwOrder : List String) (query : String) : SecResult :=
  secNoWhereStep query
    (secWildcardStep query
      (injectionPatterns.foldl (secInjStep query)
        (SYSTEM_OBJECTS.foldl (secSysStep query)
          (kwOrder.foldl (secKeywordStep (upperStr query)) ⟨[], [], "low"⟩))))

/-- The `SQLValidator._validate_syntax`.  `parseNonempty` models whether
`sqlparse.parse(query)` returned a non-empty statement list. -/
def validate_stx (parseNonempty : Bool) (query : String) : Bool × List String :=
  if !parseNonempty then (false, ["Empty or invalid SQL query"])
  else
    let parenDiff : Int := (countStr query "(" : Int) - (countStr query ")" : Int)
    let e1 := if parenDiff ≠ 0 then
        ["Unmatched parentheses (difference: " ++ toString parenDiff ++ ")"] else []
    let quoteDiff : Int :=
      (countStr query sq : Int) - (countStr query (String.mk [bsc, sqc]) : Int)
    let e2 := if quoteDiff % 2 ≠ 0 then ["Unmatched single quotes"] else []
    let qU := stripStr (upperStr query)
    let e3 :=
      if !(["SELECT", "WITH", "INSERT", "UPDATE", "DELETE"].any
            (fun st => startsWith qU st)) then
        ["Query does not start with a recognized SQL statement"] else []
    let errs := e1 ++ e2 ++ e3
    (errs.isEmpty, errs)

/-!  Tokens.  `_validate_statement_types` iterates over
`parsed_query.flatten()`; we model that token stream as a list of
(token-type, value) pairs.  The crucial, deliberately preserved detail of
`sqlparse`: the statement keywords carry the *sub*-types `Keyword.DML`
(SELECT/INSERT/UPDATE/DELETE), `Keyword.DDL` (CREATE/DROP/ALTER) and
`Keyword.CTE` (WITH), which fail the identity test
`token.ttype is tokens.Keyword` performed by the Python code. -/

/-- Model of the `sqlparse` token types relevant to the validator. -/
inductive TType where
  | kw      -- `tokens.Keyword`
  | kwDML   -- `tokens.Keyword.DML`
  | kwDDL   -- `tokens.Keyword.DDL`
  | kwCTE   -- `tokens.Keyword.CTE`
  | name
  | punct
  | ws
  | numb
  | oper
  | strLit
  | other
deriving DecidableEq

/-- One flattened `sqlparse` token. -/
structure Tok where
  ttype : TType
  value : String
deriving DecidableEq

/-- The keyword list checked by `_validate_statement_types`. -/
def stmtTypeKeywords : List String :=
  ["SELECT", "INSERT", "UPDATE", "DELETE", "CREATE", "DROP", "ALTER", "WITH"]

/-- The scan for the first token satisfying
`token.ttype is tokens.Keyword and token.value.upper() in [...]`. -/
def firstKwStatementType : List Tok → Option String
  | [] => none
  | t :: rest =>
    if t.ttype = TType.kw ∧ upperStr t.value ∈ stmtTypeKeywords then
      some (upperStr t.value)
    else firstKwStatementType rest

/-- The `SQLValidator._validate_statement_types`: returns `(allowed, type)`. -/
def validate_statement_types (ts : List Tok) : Bool × String :=
  match firstKwStatementType ts with
  | none => (false, "unknown")
  | some st => (ALLOWED_STATEMENTS.contains st, st)

/-- The property of `sqlparse`'s keyword tables that decides the
statement-type pass: a token whose type is the *plain* `Keyword` type is
never one of the statement keywords (those are always classified with the
`DML`/`DDL`/`CTE` subtypes, which fail Python's `is` identity test). -/
def sqlparseKeywordTyping (ts : List Tok) : Prop :=
  ∀ t ∈ ts, t.ttype = TType.kw → upperStr t.value ∉ stmtTypeKeywords

/-- The `SQLValidator._validate_structure`: returns `(warnings, suggestions)`. -/
def validate_structure (query : String) : List String × List String :=
  let qs := upperStr query
  let sugg1 := if containsStr qs "SELECT *" then
      ["Consider specifying column names instead of using SELECT *"] else []
  let sugg2 := if !containsStr qs "ORDER BY" && containsStr qs "GROUP BY" then
      ["Consider adding ORDER BY for consistent results with GROUP BY"] else []
  let warn1 := if countStr qs "JOIN" > 5 then
      ["Query has many joins, consider breaking into smaller queries"] else []
  let warn2 := if containsStr qs "LIKE" && countStr qs "%" > 3 then
      ["Multiple LIKE operations with wildcards may be slow"] else []
  let sugg3 := if containsStr qs " JOIN " && !containsStr qs " AS " then
      ["Consider using table aliases for better readability"] else []
  (warn1 ++ warn2, sugg1 ++ sugg2 ++ sugg3)

/-- The `SQLValidator._validate_performance`: returns `(warnings, suggestions)`. -/
def validate_performance (query : String) : List String × List String :=
  let qs := upperStr query
  let warn1 := if containsStr qs "SELECT *" then
      ["SELECT * can impact performance, specify needed columns"] else []
  let rep := replaceStr (replaceStr qs (sq ++ "%") "") ("%" ++ sq) ""
  let warn2 := if containsStr qs "LIKE" && containsStr rep (sq ++ "%" ++ sq) then
      ["Leading wildcard in LIKE clause prevents index usage"] else []
  let sugg1 := if containsStr qs "ORDER BY" && !containsStr qs "LIMIT"
      && !containsStr qs "TOP" then
      ["Consider adding TOP/LIMIT clause with ORDER BY for better performance"] else []
  let sugg2 := if countStr qs "OR" > 3 then
      ["Multiple OR conditions may benefit from UNION or IN clause"] else []
  let sugg3 := if containsStr qs "NOT IN" then
      ["NOT IN with NULL values can cause unexpected results, consider NOT EXISTS"] else []
  let funcWarns := ["UPPER(", "LOWER(", "SUBSTRING(", "CONVERT(", "CAST("].foldl
    (fun acc p =>
      if containsStr qs p && containsStr qs "WHERE" then
        acc ++ ["Function " ++ p ++ " in WHERE clause may prevent index usage"]
      else acc) []
  (warn1 ++ warn2 ++ funcWarns, sugg1 ++ sugg2 ++ sugg3)

/-- Cut a line at the first `--` (the `re.sub(r'--.*$', ...)` pass). -/
def cutLineComment : List Char → List Char
  | [] => []
  | c :: rest =>
    if c = '-' ∧ rest.head? = some '-' then []
    else c :: cutLineComment rest

/-- Remove `--`-to-end-of-line comments from every line. -/
def removeLineComments (s : String) : String :=
  joinWith "\n" ((splitOnStr s "\n").map (fun l => String.mk (cutLineComment l.data)))

/-- After an opening `/\x2a`, the number of characters up to and
including the nearest closing `\x2a/`; `none` when there is no closing
marker (the non-greedy regex then has no match starting here). -/
def blockEndDist : List Char → Option Nat
  | [] => none
  | [_] => none
  | c :: d :: rest =>
    if c = '*' ∧ d = '/' then some 2
    else (blockEndDist (d :: rest)).map (· + 1)

/-- Helper for `removeBlockComments` (`skip` counts comment characters
still to be consumed). -/
def rbcAux (skip : Nat) : List Char → List Char
  | [] => []
  | c :: rest =>
    match skip with
    | k + 1 => rbcAux k rest
    | 0 =>
      if c = '/' ∧ rest.head? = some '*' then
        match blockEndDist rest.tail with
        | some n => rbcAux (1 + n) rest
        | none => c :: rbcAux 0 rest
      else c :: rbcAux 0 rest

/-- The `re.sub(r'/\x2a.\x2a?\x2a/', '', s, re.DOTALL)` pass: remove each
non-greedy block comment. -/
def removeBlockComments (s : List Char) : List Char := rbcAux 0 s

/-- Helper for `collapseWs`: `inRun` records whether the previous
character was whitespace (in which case further whitespace is absorbed). -/
def collapseWsAux (inRun : Bool) : List Char → List Char
  | [] => []
  | c :: rest =>
    if isWsChar c then
      (if inRun then collapseWsAux true rest else ' ' :: collapseWsAux true rest)
    else c :: collapseWsAux false rest

/-- Collapse every whitespace run to a single space (`re.sub(r'\s+', ' ', s)`). -/
def collapseWs (s : List Char) : List Char := collapseWsAux false s

/-- The `SQLValidator._sanitize_query`. -/
def sanitize_query (query : String) : String :=
  let a := removeLineComments query
  let b := String.mk (removeBlockComments a.data)
  let c := String.mk (trimWs (collapseWs b.data))
  if endsWith c ";" then c else c ++ ";"

/-- The dictionary returned by `SQLValidator.validate_query`. -/
structure VResult where
  valid : Bool
  errors : List String
  warnings : List String
  security_issues : List String
  suggestions : List String
  sanitized_query : String
  risk_level : String
deriving DecidableEq

/-- The `SQLValidator.validate_query`.

Parameters modelling the `sqlparse` collaborator:
* `parseM` — `none` when `sqlparse.parse(query)` is empty, otherwise the
  flattened token stream of the first parsed statement;
* `kwOrder` — the iteration order of the `DANGEROUS_KEYWORDS` set.

The structure/performance passes operate on `str(parsed[0]).upper()`,
which for a single-statement input is the input text itself (sqlparse
round-trips the statement text verbatim); they are therefore applied to
`query` directly. -/
def validate_query (level : ValidationLevel) (kwOrder : List String)
    (parseM : Option (List Tok)) (query : String) : VResult :=
  let r0 : VResult := ⟨true, [], [], [], [], query, "low"⟩
  let stx := validate_stx parseM.isSome query
  if !stx.1 then { r0 with valid := false, errors := stx.2 }
  else
    match parseM with
    | none => { r0 with valid := false, errors := ["Failed to parse SQL query"] }
    | some ts =>
      let sec := validate_security kwOrder query
      let risk := if sec.risk_level = "high" then "high"
        else if sec.risk_level = "medium" then "medium" else "low"
      let strictBlocked := sec.risk_level = "high" ∧ level = ValidationLevel.strict
      let errs1 : List String :=
        if strictBlocked then ["High-risk query blocked by strict validation"] else []
      let stmt := validate_statement_types ts
      let errs2 := errs1 ++
        (if stmt.1 then [] else ["Statement type not allowed: " ++ stmt.2])
      let st := validate_structure query
      let pf := validate_performance query
      { valid := !strictBlocked && stmt.1,
        errors := errs2,
        warnings := sec.warnings ++ st.1 ++ pf.1,
        security_issues := sec.issues,
        suggestions := st.2 ++ pf.2,
        sanitized_query := sanitize_query query,
        risk_level := risk }

/-!  ## Embedding of `src/optimizer.py` (`SQLOptimizer`)

The two patterns that actually rewrite (`\bINNER\s+JOIN\b` → `JOIN` and
`EXISTS\s*\(\s*SELECT\s+\x2a` → group + `SELECT 1`) are modelled with
dedicated scanners implementing `re.sub`'s leftmost, non-overlapping
semantics on the original string.  `sqlparse.format` is an external
collaborator and is taken as an explicit parameter `fmt`. -/

/-- The `OptimizationLevel` enum. -/
inductive OptimizationLevel where
  | basic
  | standard
  | aggressive
deriving DecidableEq

/-- Python's `\w` ASCII word character (for `\b` boundaries). -/
def isWordChar (c : Char) : Bool := c.isAlphanum || c = '_'

/-- Consume a literal word, case-insensitively; return the remainder. -/
def litCI : List Char → List Char → Option (List Char)
  | [], s => some s
  | _ :: _, [] => none
  | a :: w, b :: s => if lcEq a b then litCI w s else none

/-- Try to match `\bINNER\s+JOIN\b` starting at the head of `s`; `prev`
is the character of the original string just before this position (for
the left word boundary).  Returns the length of the match. -/
def matchIJlen (prev : Option Char) (s : List Char) : Option Nat :=
  if (match prev with | none => true | some c => !isWordChar c) then
    match litCI "INNER".data s with
    | none => none
    | some r1 =>
      if (r1.takeWhile isWsChar).length = 0 then none
      else
        match litCI "JOIN".data (r1.dropWhile isWsChar) with
        | none => none
        | some r3 =>
          match r3.head? with
          | none => some (9 + (r1.takeWhile isWsChar).length)
          | some c =>
            if isWordChar c then none
            else some (9 + (r1.takeWhile isWsChar).length)
  else none

theorem matchIJlen_pos (prev : Option Char) (s : List Char) (n : Nat)
    (h : matchIJlen prev s = some n) : 1 ≤ n := by
  unfold matchIJlen at h
  repeat' split at h
  all_goals first
    | (injection h with h'; omega)
    | simp at h

/-- The `re.sub(r'\bINNER\s+JOIN\b', 'JOIN', s, flags=re.IGNORECASE)`:
leftmost non-overlapping matches, boundaries computed on the original
string.  `prev` is the original character just before the current
position; `skip` counts characters of the previous match still to be
consumed (the replacement `JOIN` has already been emitted). -/
def innerJoinSubAux (prev : Option Char) (skip : Nat) : List Char → List Char
  | [] => []
  | c :: rest =>
    match skip with
    | k + 1 => innerJoinSubAux (some c) k rest
    | 0 =>
      match matchIJlen prev (c :: rest) with
      | some n => 'J' :: 'O' :: 'I' :: 'N' :: innerJoinSubAux (some c) (n - 1) rest
      | none => c :: innerJoinSubAux (some c) 0 rest

/-- The INNER JOIN rewrite on `String`. -/
def innerJoinSub (s : String) : String := String.mk (innerJoinSubAux none 0 s.data)

/-- Try to match `(EXISTS\s*\(\s*)SELECT\s+\x2a` at the head of `s`.
Returns `(group length, total match length)`; the group is the
`EXISTS\s*\(\s*` part kept by the replacement `\1SELECT 1`. -/
def matchExistsLen (s : List Char) : Option (Nat × Nat) :=
  match litCI "EXISTS".data s with
  | none => none
  | some r1 =>
    match r1.dropWhile isWsChar with
    | '(' :: r3 =>
      match litCI "SELECT".data (r3.dropWhile isWsChar) with
      | none => none
      | some r5 =>
        if (r5.takeWhile isWsChar).length = 0 then none
        else
          match r5.dropWhile isWsChar with
          | '*' :: _ =>
            some (6 + (r1.takeWhile isWsChar).length + 1 + (r3.takeWhile isWsChar).length,
                  6 + (r1.takeWhile isWsChar).length + 1 + (r3.takeWhile isWsChar).length
                    + 6 + (r5.takeWhile isWsChar).length + 1)
          | _ => none
    | _ => none

theorem matchExistsLen_pos (s : List Char) (g n : Nat)
    (h : matchExistsLen s = some (g, n)) : 1 ≤ n := by
  unfold matchExistsLen at h
  repeat' split at h
  all_goals first
    | (injection h with h'; injection h' with h1 h2; omega)
    | simp at h

/-- The `re.sub(r'(EXISTS\s*\(\s*)SELECT\s+\x2a', r'\1SELECT 1', s,
flags=re.IGNORECASE)`.  On a match the kept group and the replacement
text are emitted at once and the matched characters are skipped. -/
def existsSelect1SubAux (skip : Nat) : List Char → List Char
  | [] => []
  | c :: rest =>
    match skip with
    | k + 1 => existsSelect1SubAux k rest
    | 0 =>
      match matchExistsLen (c :: rest) with
      | some gn =>
        (c :: rest).take gn.1 ++ "SELECT 1".data ++ existsSelect1SubAux (gn.2 - 1) rest
      | none => c :: existsSelect1SubAux 0 rest

/-- The EXISTS(SELECT \x2a) rewrite on `String`. -/
def existsSelect1Sub (s : String) : String := String.mk (existsSelect1SubAux 0 s.data)

/-- Scan helper for the EXISTS(SELECT \x2a) search. -/
def existsSearchAux : List Char → Bool
  | [] => (matchExistsLen []).isSome
  | c :: rest => (matchExistsLen (c :: rest)).isSome || existsSearchAux rest

/-- The `re.search(r'EXISTS\s*\(\s*SELECT\s+\x2a', s, re.IGNORECASE)`
truthiness (the search pattern of `_optimize_exists_clauses` has no
group; a match exists iff the substitution matcher fires somewhere). -/
def existsSelectStarSearch (s : String) : Bool := existsSearchAux s.data


/-- Result of one optimization rule: the Python per-rule dictionary
`{"modified", "query", "optimization", "improvements"}` (the early return
of `_optimize_select_star` omits the last two keys; they are never read in
that case and are embedded as `""` / `[]`). -/
structure RuleOut where
  modified : Bool
  query : String
  ruleName : String
  improvements : List String
deriving DecidableEq

/-- The `SQLOptimizer._optimize_select_star` (with no schema info, as in every
call in this repository). -/
def optimize_select_star (query : String) : RuleOut :=
  if !containsStr (upperStr query) "SELECT *" then ⟨false, query, "", []⟩
  else ⟨false, query, "SELECT * analysis",
    ["Consider specifying column names instead of SELECT * for better performance"]⟩

/-- The `SQLOptimizer._optimize_joins`. -/
def optimize_joins (query : String) : RuleOut :=
  let qU := upperStr query
  let first : Bool × String × List String :=
    if containsStr qU "INNER JOIN" then
      (true, innerJoinSub query, ["Simplified INNER JOIN to JOIN"])
    else (false, query, [])
  let imp2 := if countStr qU "JOIN" > 2 then
      ["Consider ordering joins with smaller tables first"] else []
  let imp3 := if containsStr qU "JOIN" && !containsStr qU "ON"
      && !containsStr qU "WHERE" then
      ["Warning: Potential Cartesian product detected - ensure proper join conditions"]
    else []
  ⟨first.1, first.2.1, "JOIN optimization", first.2.2 ++ imp2 ++ imp3⟩

/-- The pattern `LIKE\s+'%([^%]+)%'` of `_optimize_where_clauses`. -/
def likeLeadingWildcardPat : List Pat :=
  litP "like" ++ [Pat.ws1, Pat.lit1 sqc, Pat.lit1 '%', Pat.notCh '%',
    Pat.notStar '%', Pat.lit1 '%', Pat.lit1 sqc]

/-- The `SQLOptimizer._optimize_where_clauses`. -/
def optimize_where_clauses (query : String) : RuleOut :=
  let qU := upperStr query
  let i1 := if containsStr qU "WHERE" then
      ["Ensure most selective conditions are placed first in WHERE clause"] else []
  let i2 := if reSearch likeLeadingWildcardPat query then
      ["Consider using full-text search for LIKE patterns with leading wildcards"] else []
  let i3 := if containsStr qU "IS NULL" && containsStr qU "OR" then
      ["Consider using ISNULL() or COALESCE() for better performance with NULL checks"]
    else []
  ⟨false, query, "WHERE clause optimization", i1 ++ i2 ++ i3⟩

/-- The pattern `SELECT\s+[^,]*\(\s*SELECT\s+` of `_optimize_subqueries`. -/
def scalarSubqueryPat : List Pat :=
  litP "select" ++ [Pat.ws1, Pat.notStar ',', Pat.lit1 '(', Pat.ws0] ++
    litP "select" ++ [Pat.ws1]

/-- The `SQLOptimizer._optimize_subqueries`. -/
def optimize_subqueries (query : String) : RuleOut :=
  let qU := upperStr query
  let sc : Int := (countStr qU "SELECT" : Int) - 1
  let imps :=
    if sc > 0 then
      (if containsStr qU "EXISTS" then
         ["EXISTS subqueries are generally well-optimized"]
       else if containsStr qU "IN (" && containsStr qU "SELECT" then
         ["Consider converting IN subqueries to JOINs for better performance"]
       else []) ++
      (if reSearch scalarSubqueryPat query then
         ["Consider converting scalar subqueries to LEFT JOINs"] else [])
    else []
  ⟨false, query, "Subquery optimization", imps⟩

/-- The `SQLOptimizer._optimize_aggregations`. -/
def optimize_aggregations (query : String) : RuleOut :=
  let qU := upperStr query
  let i1 := if containsStr qU "GROUP BY" && !containsStr qU "ORDER BY" then
      ["Consider adding ORDER BY for consistent results with GROUP BY"] else []
  let i2 := if containsStr qU "COUNT(*)" then
      ["COUNT(*) is generally efficient, but COUNT(column) can be faster if column is indexed"]
    else []
  let i3 := if containsStr qU "COUNT(DISTINCT" then
      ["COUNT(DISTINCT) can be expensive on large datasets"] else []
  let i4 := if containsStr qU "HAVING" then
      ["Ensure HAVING conditions can" ++ sq ++
        "t be moved to WHERE clause for better performance"] else []
  ⟨false, query, "Aggregation optimization", i1 ++ i2 ++ i3 ++ i4⟩

/-- The `SQLOptimizer._optimize_ordering`. -/
def optimize_ordering (query : String) : RuleOut :=
  let qU := upperStr query
  if containsStr qU "ORDER BY" then
    let i1 := if !containsStr qU "TOP " && !containsStr qU "LIMIT " then
        ["Consider adding TOP clause if you don" ++ sq ++ "t need all results"] else []
    let i2 := if ["UPPER(", "LOWER(", "SUBSTRING("].any (fun f => containsStr qU f) then
        ["Avoid functions in ORDER BY clause - consider computed columns or indexes"]
      else []
    let seg0 := (splitOnStr qU "ORDER BY").getD 1 ""
    let seg := if containsStr qU "GROUP BY" then (splitOnStr seg0 "GROUP BY").getD 0 ""
      else seg0
    let i3 := if countStr seg "," > 2 then
        ["Multiple ORDER BY columns may impact performance"] else []
    ⟨false, query, "ORDER BY optimization", i1 ++ i2 ++ i3⟩
  else ⟨false, query, "ORDER BY optimization", []⟩

/-- The `SQLOptimizer._optimize_case_statements`. -/
def optimize_case_statements (query : String) : RuleOut :=
  let cc := countStr (upperStr query) "CASE"
  let i1 := if cc > 0 then
      ["Consider ordering CASE conditions by frequency of occurrence"] else []
  let i2 := if cc > 0 && cc > 3 then
      ["Multiple CASE statements may benefit from lookup tables"] else []
  ⟨false, query, "CASE statement optimization", i1 ++ i2⟩

/-- The `SQLOptimizer._add_query_hints`. -/
def add_query_hints (level : OptimizationLevel) (query : String) : RuleOut :=
  let qU := upperStr query
  let imps :=
    if level = OptimizationLevel.aggressive then
      if !containsStr qU "WITH (" && !containsStr qU "OPTION (" then
        (if containsStr qU "JOIN" then
           ["Consider adding query hints like OPTION (HASH JOIN) for complex queries"]
         else []) ++
        (if containsStr qU "ORDER BY" && containsStr qU "TOP" then
           ["Consider OPTION (FAST N) hint for queries with TOP and ORDER BY"] else [])
      else []
    else []
  ⟨false, query, "Query hints", imps⟩

/-- Try to match `IN\s*\([^)]+\)` at the head of `s`; returns the match
length (the `findall` of `_optimize_in_clauses`). -/
def matchInParenLen (s : List Char) : Option Nat :=
  match litCI "IN".data s with
  | none => none
  | some r1 =>
    match r1.dropWhile isWsChar with
    | '(' :: r3 =>
      if (r3.takeWhile (fun c => decide (c ≠ ')'))).length = 0 then none
      else
        match r3.dropWhile (fun c => decide (c ≠ ')')) with
        | ')' :: _ => some (2 + (r1.takeWhile isWsChar).length + 1
            + (r3.takeWhile (fun c => decide (c ≠ ')'))).length + 1)
        | _ => none
    | _ => none

theorem matchInParenLen_pos (s : List Char) (n : Nat)
    (h : matchInParenLen s = some n) : 1 ≤ n := by
  unfold matchInParenLen at h
  repeat' split at h
  all_goals first
    | (injection h with h'; omega)
    | simp at h

/-- Helper for the `findall`: `skip` counts characters of the previous
match still to be consumed. -/
def findInParenAux2 (skip : Nat) : List Char → List String
  | [] => []
  | c :: rest =>
    match skip with
    | k + 1 => findInParenAux2 k rest
    | 0 =>
      match matchInParenLen (c :: rest) with
      | some n => String.mk ((c :: rest).take n) :: findInParenAux2 (n - 1) rest
      | none => findInParenAux2 0 rest

/-- The `re.findall(r'IN\s*\([^)]+\)', s, re.IGNORECASE)`: the list of
non-overlapping matched substrings, left to right. -/
def findInParenAux (s : List Char) : List String := findInParenAux2 0 s

/-- The `SQLOptimizer._optimize_in_clauses`. -/
def optimize_in_clauses (query : String) : RuleOut :=
  let ms := findInParenAux query.data
  let i1 := ms.foldl
    (fun acc m =>
      let vc := countStr m "," + 1
      if vc > 10 then
        acc ++ ["IN clause with " ++ toString vc ++
          " values - consider using temporary table or table-valued parameter"]
      else acc) []
  let i2 := if containsStr (upperStr query) "NOT IN" then
      ["NOT IN with NULL values can cause unexpected results - consider NOT EXISTS"]
    else []
  ⟨false, query, "IN clause optimization", i1 ++ i2⟩

/-- The `SQLOptimizer._optimize_exists_clauses`: the only other rule that can
actually modify the query. -/
def optimize_exists_clauses (query : String) : RuleOut :=
  if containsStr (upperStr query) "EXISTS" then
    if existsSelectStarSearch query then
      ⟨true, existsSelect1Sub query, "EXISTS clause optimization",
        ["EXISTS clauses are generally well-optimized",
         "Replaced SELECT * with SELECT 1 in EXISTS clause"]⟩
    else ⟨false, query, "EXISTS clause optimization",
      ["EXISTS clauses are generally well-optimized"]⟩
  else ⟨false, query, "EXISTS clause optimization", []⟩

/-- The dictionary returned by `SQLOptimizer.optimize_query`. -/
structure OptResult where
  original_query : String
  optimized_query : String
  optimizations_applied : List String
  performance_improvements : List String
  warnings : List String
  estimated_improvement : Nat
deriving DecidableEq

/-- The per-rule scores of `_estimate_performance_improvement`
(default weight 2). -/
def optimizationScore (nm : String) : Nat :=
  if nm = "JOIN optimization" then 5
  else if nm = "WHERE clause optimization" then 10
  else if nm = "Subquery optimization" then 15
  else if nm = "EXISTS clause optimization" then 8
  else if nm = "IN clause optimization" then 12
  else if nm = "Aggregation optimization" then 7
  else if nm = "ORDER BY optimization" then 5
  else if nm = "CASE statement optimization" then 3
  else if nm = "Query hints" then 10
  else 2

/-- The `SQLOptimizer._estimate_performance_improvement` (capped at 50). -/
def estimate_performance_improvement (applied : List String) : Nat :=
  min (applied.foldl (fun acc o => acc + optimizationScore o) 0) 50

/-- The optimizer's ordered rule catalog. -/
def optimizerRules (level : OptimizationLevel) : List (String → RuleOut) :=
  [optimize_select_star, optimize_joins, optimize_where_clauses,
   optimize_subqueries, optimize_aggregations, optimize_ordering,
   optimize_case_statements, add_query_hints level, optimize_in_clauses,
   optimize_exists_clauses]

/-- The `SQLOptimizer.optimize_query`.

* `fmt` models the external `sqlparse.format` call of
  `SQLOptimizer.format_query` (wrapped in try/except, so total);
* `parseNonempty` models `sqlparse.parse(query)` being non-empty.

The per-rule `improvements` are collected into
`performance_improvements` only when the rule reports `modified`, exactly
as in the Python loop (`optRuleStep` is one iteration of that loop). -/
def optRuleStep (st : String × List String × List String)
    (rule : String → RuleOut) : String × List String × List String :=
  let r := rule st.1
  if r.modified then (r.query, st.2.1 ++ [r.ruleName], st.2.2 ++ r.improvements)
  else st

def optimize_query (fmt : String → String) (level : OptimizationLevel)
    (parseNonempty : Bool) (query : String) : OptResult :=
  if !parseNonempty then
    ⟨query, query, [], [], ["Failed to parse query for optimization"], 0⟩
  else
    let fin := (optimizerRules level).foldl optRuleStep (query, [], [])
    ⟨query, fmt fin.1, fin.2.1, fin.2.2, [],
     estimate_performance_improvement fin.2.1⟩

/-!  ## Embedding of `src/adapters/llm_groq.py` (`GroqAdapter`) -/

/-- The fixed sentinel returned when extraction fails. -/
def groqSentinel : String :=
  "SELECT " ++ sq ++ "Invalid SQL generated by Groq" ++ sq ++ " as error_message;"

/-- Build the in-band error SQL `SELECT '<msg>' as error_message;`. -/
def groqErrSql (msg : String) : String :=
  "SELECT " ++ sq ++ msg ++ sq ++ " as error_message;"

/-- The explanatory-phrase marker set of `_extract_sql_from_groq_response`. -/
def explanPhrases : List String :=
  ["this query", "explanation", "note:", "the above query",
   "here is", "this will", "the result", "this sql"]

/-- The line-collection loop of `_extract_sql_from_groq_response`:
`found` is the `found_select` flag; the loop breaks at the first
explanatory phrase once collection has started. -/
def collectSqlLines : List String → Bool → List String
  | [], _ => []
  | line :: rest, found =>
    let l := stripStr line
    if l = "" then collectSqlLines rest found
    else if startsWith (upperStr l) "SELECT" || found then
      (if explanPhrases.any (fun p => containsStr (lowerStr l) p) then []
       else l :: collectSqlLines rest true)
    else if ["SELECT", "WITH", "FROM"].any (fun w => containsStr (upperStr l) w) then
      l :: collectSqlLines rest true
    else collectSqlLines rest found

/-- Helper for `pySplitWs`: `cur` is the reversed current word. -/
def pySplitAux (cur : List Char) : List Char → List String
  | [] => if cur = [] then [] else [String.mk cur.reverse]
  | c :: rest =>
    if isWsChar c then
      (if cur = [] then pySplitAux [] rest
       else String.mk cur.reverse :: pySplitAux [] rest)
    else pySplitAux (c :: cur) rest

/-- Python's `str.split()` (split on whitespace runs, empties dropped). -/
def pySplitWs (s : List Char) : List String := pySplitAux [] s

/-- Everything `_extract_sql_from_groq_response` does before its final
"looks like SELECT" guard. -/
def extractCore (response : String) : String :=
  let a := stripStr response
  let b := stripStr (replaceStr (replaceStr a "```sql" "") "```" "")
  let sqlLines := collectSqlLines (splitOnStr b "\n") false
  let c := stripStr (joinWith " " sqlLines)
  let d := if c ≠ "" ∧ ¬ startsWith (upperStr c) "SELECT" = true then
      (if ["FROM", "WHERE", "JOIN"].any (fun w => containsStr (upperStr c) w) then
        "SELECT " ++ c
      else c)
    else c
  let e := joinWith " " (pySplitWs d.data)
  let f1 := replaceStr e " ." "."
  let f2 := replaceStr f1 ". " "."
  let f3 := replaceStr f2 " ," ","
  let f4 := replaceStr f3 "( " "("
  let f5 := replaceStr f4 " )" ")"
  if f5 ≠ "" ∧ ¬ endsWith f5 ";" = true then f5 ++ ";" else f5

/-- The `GroqAdapter._extract_sql_from_groq_response`. -/
def extract_sql_from_groq_response (response : String) : String :=
  let g := extractCore response
  if g = "" ∨ g.length < 15 ∨ ¬ startsWith (upperStr g) "SELECT" = true then
    groqSentinel
  else g

/-- Model of the decoded HTTP 200 response body. -/
inductive GroqResp where
  | noChoices                 -- `choices` missing or empty
  | badChoice                 -- choice without `message`/`content`
  | content (s : String)      -- `choices[0].message.content`
deriving DecidableEq

/-- Model of one outcome of the `requests.post` completion call. -/
inductive GroqHttp where
  | success (r : GroqResp)                     -- status 200
  | httpError (code : Nat) (detail : Option String)  -- non-200 status
  | timeoutExc                                 -- requests timeout
  | otherExc (msg : String)                    -- any other raised exception
deriving DecidableEq

/-- The `GroqAdapter.generate_sql`.  `apiKey` models `self.api_key`;
`outcome` models the behaviour of the HTTP completion call; `timeout` is
the call's timeout parameter (only echoed in the timeout message).  For a
400 status, `detail` models `response.json()["error"]["message"]` (`none`
when that extraction raises). -/
def groq_generate_sql (apiKey : Option String) (timeout : Nat)
    (outcome : GroqHttp) : String :=
  match apiKey with
  | none => groqErrSql "Groq API key not configured"
  | some _ =>
    match outcome with
    | GroqHttp.success GroqResp.noChoices =>
      groqErrSql "No response choices from Groq API"
    | GroqHttp.success GroqResp.badChoice =>
      groqErrSql "Invalid response structure from Groq API"
    | GroqHttp.success (GroqResp.content s) =>
      if s = "" ∨ (stripStr s).length = 0 then groqErrSql "Empty response from Groq API"
      else extract_sql_from_groq_response s
    | GroqHttp.httpError code detail =>
      let base := "Groq API error: " ++ toString code
      let em :=
        if code = 401 then base ++ " - Invalid API key"
        else if code = 429 then base ++ " - Rate limit exceeded"
        else if code = 400 then
          (match detail with
           | some d => base ++ " - " ++ d
           | none => base)
        else base
      groqErrSql em
    | GroqHttp.timeoutExc =>
      groqErrSql ("Groq API timeout after " ++ toString timeout ++ "s")
    | GroqHttp.otherExc msg =>
      groqErrSql ("Error: " ++ String.mk (msg.data.take 100))

/-!  ## Embedding of `src/sql_generator.py` (`SQLGenerator.generate_sql`)

Collaborator behaviour is a function from the attempt index to an
outcome: the prompt-building step
(`TwoStepVectorDBSearch.generate_prompt_with_definitions`) may raise
before the completion call, the completion call itself may raise, or a
string is returned.  One completion-service call is counted whenever the
prompt step did not raise. -/

/-- Behaviour of `_generate_sql_with_llm` for one attempt. -/
inductive AttemptOutcome where
  | promptExn (msg : String)  -- retrieval/prompt raised; no completion call made
  | llmExn (msg : String)     -- the completion call was made and raised
  | ok (sql : String)         -- the completion call was made and returned
deriving DecidableEq

/-- State of the retry loop when it finishes. -/
structure LoopOut where
  attempts : Nat              -- generation_metadata["attempts"]
  attemptIdx : Nat            -- the Python `attempt` variable at loop exit
  sqlQ : Option String        -- the `sql_query` local
  calls : Nat                 -- number of completion-service calls so far
  earlyErr : Option String    -- set when the loop returned out of generate_sql
deriving DecidableEq

/-- The retry loop of `generate_sql` (`for attempt in range(max_retries)`),
structured as recursion over the number `left` of remaining iterations;
the Python loop index is `i = maxR - left` and the top-level call uses
`left = maxR`.  Breaks on the first extraction that is non-empty after
stripping; an exception on the final attempt returns from the function
with an aggregated error. -/
def runAttempts (att : Nat → AttemptOutcome) (maxR : Nat) :
    Nat → Option String → Nat → LoopOut
  | 0, sqlQ, calls => ⟨maxR, maxR - 1, sqlQ, calls, none⟩
  | left + 1, sqlQ, calls =>
    let i := maxR - (left + 1)
    match att i with
    | AttemptOutcome.ok s =>
      if stripStr s ≠ "" then ⟨i + 1, i, some s, calls + 1, none⟩
      else runAttempts att maxR left (some s) (calls + 1)
    | AttemptOutcome.promptExn e =>
      if i = maxR - 1 then
        ⟨i + 1, i, sqlQ, calls, some ("All generation attempts failed. Last error: " ++ e)⟩
      else runAttempts att maxR left sqlQ calls
    | AttemptOutcome.llmExn e =>
      if i = maxR - 1 then
        ⟨i + 1, i, sqlQ, calls + 1,
          some ("All generation attempts failed. Last error: " ++ e)⟩
      else runAttempts att maxR left sqlQ (calls + 1)

/-- One step of the error-driven repair loop of `_attempt_sql_fix`. -/
def fix_error_step (acc : String) (err : String) : String :=
  let el := lowerStr err
  let a := if containsStr el "semicolon" && !endsWith (stripStr acc) ";" then
      stripStr acc ++ ";"
    else acc
  let b := if containsStr el "quote" && (countStr a sq) % 2 ≠ 0 then a ++ sq else a
  if containsStr el "parenthes" then
    let o := countStr b "("
    let cl := countStr b ")"
    if o > cl then b ++ String.mk (List.replicate (o - cl) ')')
    else if cl > o then String.mk (List.replicate (cl - o) '(') ++ b
    else b
  else b

/-- The `SQLGenerator._attempt_sql_fix`. -/
def attempt_sql_fix (sql : String) (errors : List String) : String :=
  errors.foldl fix_error_step sql

/-- The `optimization_result` stub stored by `generate_sql` (step 4 states
"No additional post-processing": the `SQLOptimizer` is never invoked). -/
structure OptStubRes where
  optimized_query : String
  optimizations_applied : List String
  warnings : List String
deriving DecidableEq

/-- The dictionary returned by `SQLGenerator.generate_sql` (the fields the
claims are about; `llmCalls` is instrumentation counting the
completion-service calls made during the call — it is not a key of the
Python dictionary). -/
structure GenResult where
  success : Bool
  natural_language_query : String
  sql_query : String
  explanation : String
  validation_result : Option VResult
  optimization_result : Option OptStubRes
  attempts : Nat
  errors : List String
  warnings : List String
  llmCalls : Nat
deriving DecidableEq

/-- The `SQLGenerator.generate_sql`.

Modelled collaborators: `parseM` is `sqlparse.parse` (used by the
validator) and `kwOrder`/`level` configure the validator as in
`validate_query`; `att` is the per-attempt behaviour of retrieval plus
completion.  The explanation step faithfully reproduces the source bug:
line 211 references the undefined name `schema_context`, so the step
raises `NameError` before any completion call and is caught, appending
the warning `"Could not generate explanation"`; the explanation stays
`""` and no completion call is made. -/
def sqlgen_generate_sql (level : ValidationLevel) (kwOrder : List String)
    (parseM : String → Option (List Tok)) (att : Nat → AttemptOutcome)
    (nlq : String) (includeExp : Bool) (maxR : Nat)
    (validateFlag : Bool) (optimizeFlag : Bool) : GenResult :=
  let lo := runAttempts att maxR maxR none 0
  let base : GenResult :=
    ⟨false, nlq, "", "", none, none, lo.attempts, [], [], lo.calls⟩
  match lo.earlyErr with
  | some e => { base with errors := [e] }
  | none =>
    match lo.sqlQ with
    | none => { base with errors := ["Failed to generate SQL after all attempts"] }
    | some s0 =>
      if stripStr s0 = "" then
        { base with errors := ["Failed to generate SQL after all attempts"] }
      else
        let sv : String × Option VResult :=
          if validateFlag then
            let v := validate_query level kwOrder (parseM s0) s0
            if !v.valid ∧ lo.attemptIdx < maxR - 1 then
              let f := attempt_sql_fix s0 v.errors
              if f ≠ "" ∧ f ≠ s0 then
                (f, some (validate_query level kwOrder (parseM f) f))
              else (s0, some v)
            else (s0, some v)
          else (s0, none)
        let warns := match sv.2 with
          | some v => v.warnings ++ v.security_issues
          | none => []
        let optRes := if optimizeFlag then
            some (⟨sv.1, [], []⟩ : OptStubRes)
          else none
        let warns2 := warns ++ (if includeExp then ["Could not generate explanation"] else [])
        { base with
          success := true
          sql_query := sv.1
          validation_result := sv.2
          optimization_result := optRes
          warnings := warns2 }

/-!  ## Concrete instances used by witnesses and counterexamples

The token lists are the flattened `sqlparse` token streams of the
corresponding statements (statement keywords carry their `DML`/`DDL`/`CTE`
subtypes; `FROM`/`WHERE`/`TABLE`/`AS` carry the plain `Keyword` type). -/

/-- The stubbed completion of spec scenario 1. -/
def scenario1SQL : String :=
  "SELECT i.firstname, i.lastname FROM spt_identity i WHERE i.inactive = 0"

/-- Flattened token stream of `scenario1SQL`. -/
def scenario1Toks : List Tok :=
  [⟨TType.kwDML, "SELECT"⟩, ⟨TType.ws, " "⟩, ⟨TType.name, "i"⟩, ⟨TType.punct, "."⟩,
   ⟨TType.name, "firstname"⟩, ⟨TType.punct, ","⟩, ⟨TType.ws, " "⟩, ⟨TType.name, "i"⟩,
   ⟨TType.punct, "."⟩, ⟨TType.name, "lastname"⟩, ⟨TType.ws, " "⟩, ⟨TType.kw, "FROM"⟩,
   ⟨TType.ws, " "⟩, ⟨TType.name, "spt_identity"⟩, ⟨TType.ws, " "⟩, ⟨TType.name, "i"⟩,
   ⟨TType.ws, " "⟩, ⟨TType.kw, "WHERE"⟩, ⟨TType.ws, " "⟩, ⟨TType.name, "i"⟩,
   ⟨TType.punct, "."⟩, ⟨TType.name, "inactive"⟩, ⟨TType.ws, " "⟩, ⟨TType.oper, "="⟩,
   ⟨TType.ws, " "⟩, ⟨TType.numb, "0"⟩]

/-- The write statement of spec scenario 2. -/
def scenario2SQL : String := "DROP TABLE spt_identity;"

/-- Flattened token stream of `scenario2SQL`. -/
def scenario2Toks : List Tok :=
  [⟨TType.kwDDL, "DROP"⟩, ⟨TType.ws, " "⟩, ⟨TType.kw, "TABLE"⟩, ⟨TType.ws, " "⟩,
   ⟨TType.name, "spt_identity"⟩, ⟨TType.punct, ";"⟩]

/-- A plain write statement used by the read-only-guarantee witness. -/
def dropUsersSQL : String := "DROP TABLE users"

/-- Flattened token stream of `dropUsersSQL`. -/
def dropUsersToks : List Tok :=
  [⟨TType.kwDDL, "DROP"⟩, ⟨TType.ws, " "⟩, ⟨TType.kw, "TABLE"⟩, ⟨TType.ws, " "⟩,
   ⟨TType.name, "users"⟩]

/-- Flattened token stream of `groqSentinel`. -/
def groqSentinelToks : List Tok :=
  [⟨TType.kwDML, "SELECT"⟩, ⟨TType.ws, " "⟩,
   ⟨TType.strLit, sq ++ "Invalid SQL generated by Groq" ++ sq⟩, ⟨TType.ws, " "⟩,
   ⟨TType.kw, "AS"⟩, ⟨TType.ws, " "⟩, ⟨TType.name, "error_message"⟩,
   ⟨TType.punct, ";"⟩]

/-- A parse model covering the concrete strings used by witnesses and
counterexamples (everything else parses to the sentinel token stream's
shape only when asked for; unused strings map to `none`). -/
def witnessParseM : String → Option (List Tok) :=
  fun s =>
    if s = scenario1SQL then some scenario1Toks
    else if s = scenario2SQL then some scenario2Toks
    else if s = groqSentinel then some groqSentinelToks
    else none

/-- A SELECT whose upper-cased text contains the deny-listed keyword
DELETE (as a substring of a column name). -/
def deletedColSQL : String := "SELECT deleted FROM spt_audit"

/-- Flattened token stream of `deletedColSQL`. -/
def deletedColToks : List Tok :=
  [⟨TType.kwDML, "SELECT"⟩, ⟨TType.ws, " "⟩, ⟨TType.name, "deleted"⟩, ⟨TType.ws, " "⟩,
   ⟨TType.kw, "FROM"⟩, ⟨TType.ws, " "⟩, ⟨TType.name, "spt_audit"⟩]

/-- A candidate the optimizer's catalog would rewrite. -/
def innerJoinSQL : String := "SELECT a FROM t INNER JOIN u ON t.id = u.id"

/-- The double-INNER string on which the INNER JOIN rewrite re-fires. -/
def doubleInnerSQL : String := "SELECT a FROM t INNER INNER JOIN u ON t.id = u.id"

/-- A candidate on which no optimizer rule fires. -/
def plainJoinSQL : String := "SELECT a FROM t JOIN u ON t.id = u.id"


/-!  ## Supporting lemmas -/

theorem firstKwStatementType_eq_none (ts : List Tok) (h : sqlparseKeywordTyping ts) :
    firstKwStatementType ts = none := by
  induction ts with
  | nil => rfl
  | cons t rest ih =>
    unfold firstKwStatementType
    rw [if_neg]
    · exact ih (fun t' ht' => h t' (List.mem_cons_of_mem _ ht'))
    · rintro ⟨h1, h2⟩
      exact h t (List.mem_cons_self _ _) h1 h2

theorem validate_statement_types_unknown (ts : List Tok)
    (h : sqlparseKeywordTyping ts) :
    validate_statement_types ts = (false, "unknown") := by
  unfold validate_statement_types
  rw [firstKwStatementType_eq_none ts h]

/-- After the keyword loop, the risk level stays inside
`{"low", "medium", "high"}`. -/
theorem secKeywordStep_risk_cases (qU : String) (acc : SecResult) (kw : String) :
    (secKeywordStep qU acc kw).risk_level = acc.risk_level ∨
    (secKeywordStep qU acc kw).risk_level = "medium" ∨
    (secKeywordStep qU acc kw).risk_level = "high" := by
  unfold secKeywordStep
  repeat' split
  all_goals simp

theorem secKeywordFold_preserves_not_low (qU : String) (l : List String)
    (acc : SecResult) (h : acc.risk_level ≠ "low") :
    (l.foldl (secKeywordStep qU) acc).risk_level ≠ "low" := by
  induction l generalizing acc with
  | nil => exact h
  | cons kw rest ih =>
    simp only [List.foldl_cons]
    apply ih
    rcases secKeywordStep_risk_cases qU acc kw with h1 | h1 | h1 <;> rw [h1]
    · exact h
    · decide
    · decide

theorem secKeywordFold_triggered_not_low (qU : String) (l : List String)
    (acc : SecResult) (k : String) (hk : k ∈ l) (hq : containsStr qU k = true) :
    (l.foldl (secKeywordStep qU) acc).risk_level ≠ "low" := by
  induction l generalizing acc with
  | nil => cases hk
  | cons kw rest ih =>
    simp only [List.foldl_cons]
    rcases List.mem_cons.mp hk with heq | hmem
    · subst heq
      apply secKeywordFold_preserves_not_low
      unfold secKeywordStep
      rw [if_pos hq]
      repeat' split
      all_goals simp
    · exact ih _ hmem

/-- The system-object, injection, wildcard and WHERE-less passes never
lower the risk back to "low". -/
theorem secSysFold_preserves_not_low (query : String) (l : List String)
    (acc : SecResult) (h : acc.risk_level ≠ "low") :
    (l.foldl (secSysStep query) acc).risk_level ≠ "low" := by
  induction l generalizing acc with
  | nil => exact h
  | cons so rest ih =>
    simp only [List.foldl_cons]
    apply ih
    unfold secSysStep
    split
    · simp
    · exact h

theorem secInjFold_preserves_not_low (query : String) (l : List (String × List Pat))
    (acc : SecResult) (h : acc.risk_level ≠ "low") :
    (l.foldl (secInjStep query) acc).risk_level ≠ "low" := by
  induction l generalizing acc with
  | nil => exact h
  | cons pp rest ih =>
    simp only [List.foldl_cons]
    apply ih
    unfold secInjStep
    split
    · simp
    · exact h

theorem secWildcardStep_risk (query : String) (acc : SecResult) :
    (secWildcardStep query acc).risk_level = acc.risk_level := by
  unfold secWildcardStep
  split <;> simp

theorem secNoWhereStep_not_low (query : String) (acc : SecResult)
    (h : acc.risk_level ≠ "low") : (secNoWhereStep query acc).risk_level ≠ "low" := by
  unfold secNoWhereStep
  split
  · simp
  · exact h

/-- If any deny-listed keyword occurs in the upper-cased query, the
security pass never reports "low" (for every iteration order). -/
theorem validate_security_not_low (kwOrder : List String) (query : String)
    (k : String) (hk : k ∈ kwOrder)
    (hq : containsStr (upperStr query) k = true) :
    (validate_security kwOrder query).risk_level ≠ "low" := by
  unfold validate_security
  apply secNoWhereStep_not_low
  rw [secWildcardStep_risk]
  apply secInjFold_preserves_not_low
  apply secSysFold_preserves_not_low
  exact secKeywordFold_triggered_not_low (upperStr query) kwOrder ⟨[], [], "low"⟩ k hk hq

/-- The security risk level always lies in {"low", "medium", "high"}. -/
theorem validate_security_risk_dom (kwOrder : List String) (query : String) :
    (validate_security kwOrder query).risk_level = "low" ∨
    (validate_security kwOrder query).risk_level = "medium" ∨
    (validate_security kwOrder query).risk_level = "high" := by
  unfold validate_security
  have hkw : ∀ (l : List String) (acc : SecResult),
      (acc.risk_level = "low" ∨ acc.risk_level = "medium" ∨ acc.risk_level = "high") →
      ((l.foldl (secKeywordStep (upperStr query)) acc).risk_level = "low" ∨
       (l.foldl (secKeywordStep (upperStr query)) acc).risk_level = "medium" ∨
       (l.foldl (secKeywordStep (upperStr query)) acc).risk_level = "high") := by
    intro l
    induction l with
    | nil => intro acc h; exact h
    | cons kw rest ih =>
      intro acc h
      simp only [List.foldl_cons]
      apply ih
      rcases secKeywordStep_risk_cases (upperStr query) acc kw with h1 | h1 | h1 <;>
        rw [h1] <;> tauto
  have hsys : ∀ (l : List String) (acc : SecResult),
      (acc.risk_level = "low" ∨ acc.risk_level = "medium" ∨ acc.risk_level = "high") →
      ((l.foldl (secSysStep query) acc).risk_level = "low" ∨
       (l.foldl (secSysStep query) acc).risk_level = "medium" ∨
       (l.foldl (secSysStep query) acc).risk_level = "high") := by
    intro l
    induction l with
    | nil => intro acc h; exact h
    | cons so rest ih =>
      intro acc h
      simp only [List.foldl_cons]
      apply ih
      unfold secSysStep
      split
      · simp
      · exact h
  have hinj : ∀ (l : List (String × List Pat)) (acc : SecResult),
      (acc.risk_level = "low" ∨ acc.risk_level = "medium" ∨ acc.risk_level = "high") →
      ((l.foldl (secInjStep query) acc).risk_level = "low" ∨
       (l.foldl (secInjStep query) acc).risk_level = "medium" ∨
       (l.foldl (secInjStep query) acc).risk_level = "high") := by
    intro l
    induction l with
    | nil => intro acc h; exact h
    | cons pp rest ih =>
      intro acc h
      simp only [List.foldl_cons]
      apply ih
      unfold secInjStep
      split
      · simp
      · exact h
  have hlast : ∀ acc : SecResult,
      (acc.risk_level = "low" ∨ acc.risk_level = "medium" ∨ acc.risk_level = "high") →
      ((secNoWhereStep query acc).risk_level = "low" ∨
       (secNoWhereStep query acc).risk_level = "medium" ∨
       (secNoWhereStep query acc).risk_level = "high") := by
    intro acc h
    unfold secNoWhereStep
    split
    · simp
    · exact h
  apply hlast
  rw [secWildcardStep_risk]
  apply hinj
  apply hsys
  apply hkw
  simp

/-!  ## C1 -/

/-- C1: read-only guarantee.  For every input whose upper-cased, stripped
text does not start with SELECT or WITH, and every `sqlparse` token stream
obeying the library's keyword typing, `validate_query` reports
`valid = false`.  (The statement-type pass in fact rejects *every*
statement, because `sqlparse` types the statement keywords with the
`Keyword.DML`/`DDL`/`CTE` subtypes, which fail the `is tokens.Keyword`
identity test; the syntax pre-check independently rejects inputs that
start with none of the five recognized keywords.) -/
theorem validate_query_read_only_guarantee (level : ValidationLevel)
    (kwOrder : List String) (parseM : Option (List Tok)) (query : String)
    (htok : ∀ ts, parseM = some ts → sqlparseKeywordTyping ts)
    (hstart : startsWith (stripStr (upperStr query)) "SELECT" = false ∧
              startsWith (stripStr (upperStr query)) "WITH" = false) :
    (validate_query level kwOrder parseM query).valid = false := by
  unfold validate_query
  split
  · dsimp only
    split <;> simp
  · dsimp only
    split
    · simp
    · simp [validate_statement_types_unknown _ (htok _ rfl)]

/-- Witness for C1 at the concrete input `DROP TABLE users`. -/
theorem validate_query_read_only_guarantee_witness :
    startsWith (stripStr (upperStr dropUsersSQL)) "SELECT" = false ∧
    startsWith (stripStr (upperStr dropUsersSQL)) "WITH" = false ∧
    (validate_query ValidationLevel.standard DANGEROUS_KEYWORDS
      (some dropUsersToks) dropUsersSQL).valid = false :=
  ⟨by decide, by decide,
    validate_query_read_only_guarantee ValidationLevel.standard DANGEROUS_KEYWORDS
      (some dropUsersToks) dropUsersSQL
      (by
        intro ts h
        cases h
        unfold sqlparseKeywordTyping
        decide)
      ⟨by decide, by decide⟩⟩

/-!  ## C2 -/

/-- C2: evaluation of the code at the well-formed scenario-1 SELECT.  The
claim (and spec scenario 1) says `valid = true`, `risk_level = low`; the
code returns `valid = false` with the error "Statement type not allowed:
unknown", because `_validate_statement_types` compares
`token.ttype is tokens.Keyword` while `sqlparse` types SELECT as
`Keyword.DML` — the statement-type pass never finds a statement keyword.
`risk_level` is indeed "low". -/
theorem validate_query_scenario1_rejected :
    (validate_query ValidationLevel.standard DANGEROUS_KEYWORDS
      (some scenario1Toks) scenario1SQL).valid = false ∧
    (validate_query ValidationLevel.standard DANGEROUS_KEYWORDS
      (some scenario1Toks) scenario1SQL).risk_level = "low" ∧
    (validate_query ValidationLevel.standard DANGEROUS_KEYWORDS
      (some scenario1Toks) scenario1SQL).errors =
      ["Statement type not allowed: unknown"] :=
  ⟨by decide, by decide, by decide⟩

/-!  ## C7 -/

/-- C7 counterexample: `DROP TABLE spt_identity;` contains the deny-listed
keyword DROP, yet `validate_query` returns `risk_level = "low"`: the
syntax pre-check rejects the statement (it does not start with one of the
five recognized keywords) and returns early, before the security pass
ever runs.  (Spec scenario 2 claims `risk_level = high` here.) -/
theorem validate_query_drop_low_risk :
    containsStr (upperStr scenario2SQL) "DROP" = true ∧
    "DROP" ∈ DANGEROUS_KEYWORDS ∧
    (validate_query ValidationLevel.standard DANGEROUS_KEYWORDS
      (some scenario2Toks) scenario2SQL).risk_level = "low" ∧
    (validate_query ValidationLevel.standard DANGEROUS_KEYWORDS
      (some scenario2Toks) scenario2SQL).valid = false :=
  ⟨by decide, by decide, by decide, by decide⟩

/-- C7 (amended): for every query that passes the syntax pre-check, every
iteration order of the deny-keyword set, and every parse result, the
presence of a deny-listed keyword in the upper-cased sql forces a final
`risk_level` other than "low". -/
theorem validate_query_deny_keyword_not_low (level : ValidationLevel)
    (kwOrder : List String) (parseM : Option (List Tok)) (query : String)
    (hperm : kwOrder.Perm DANGEROUS_KEYWORDS)
    (hstx : (validate_stx parseM.isSome query).1 = true)
    (k : String) (hkd : k ∈ DANGEROUS_KEYWORDS)
    (hq : containsStr (upperStr query) k = true) :
    (validate_query level kwOrder parseM query).risk_level ≠ "low" := by
  have hk : k ∈ kwOrder := hperm.mem_iff.mpr hkd
  have hn := validate_security_not_low kwOrder query k hk hq
  have hdom := validate_security_risk_dom kwOrder query
  cases parseM with
  | none => simp [validate_stx] at hstx
  | some ts =>
    unfold validate_query
    dsimp only
    rw [hstx]
    rcases hdom with h1 | h1 | h1
    · exact absurd h1 hn
    · simp [h1]
    · simp [h1]

/-- Witness for the amended C7: `SELECT deleted FROM spt_audit` contains
the deny-listed keyword DELETE as a substring and passes the syntax
pre-check, so its risk level is not "low". -/
theorem validate_query_deny_keyword_not_low_witness :
    (validate_query ValidationLevel.standard DANGEROUS_KEYWORDS
      (some deletedColToks) deletedColSQL).risk_level ≠ "low" :=
  validate_query_deny_keyword_not_low ValidationLevel.standard DANGEROUS_KEYWORDS
    (some deletedColToks) deletedColSQL (List.Perm.refl _) (by decide)
    "DELETE" (by decide) (by decide)

/-!  ## Orchestrator loop lemmas -/

/-- If every completed attempt extracts only empty (post-strip) SQL, the
loop ends with an early error, no SQL, or empty SQL. -/
theorem runAttempts_all_empty (att : Nat → AttemptOutcome) (maxR : Nat)
    (hemp : ∀ i, i < maxR → ∀ s, att i = AttemptOutcome.ok s → stripStr s = "") :
    ∀ left sqlQ calls, left ≤ maxR →
      (sqlQ = none ∨ ∃ s, sqlQ = some s ∧ stripStr s = "") →
      ((runAttempts att maxR left sqlQ calls).earlyErr ≠ none ∨
       (runAttempts att maxR left sqlQ calls).sqlQ = none ∨
       ∃ s, (runAttempts att maxR left sqlQ calls).sqlQ = some s ∧ stripStr s = "") := by
  intro left
  induction left with
  | zero =>
    intro sqlQ calls _ hinv
    simp only [runAttempts]
    tauto
  | succ left ih =>
    intro sqlQ calls hle hinv
    simp only [runAttempts]
    cases hatt : att (maxR - (left + 1)) with
    | ok s =>
      dsimp only
      have hse : stripStr s = "" := hemp _ (by omega) s hatt
      rw [if_neg (by simp [hse])]
      exact ih (some s) (calls + 1) (by omega) (Or.inr ⟨s, rfl, hse⟩)
    | promptExn e =>
      dsimp only
      split
      · left; simp
      · exact ih sqlQ calls (by omega) hinv
    | llmExn e =>
      dsimp only
      split
      · left; simp
      · exact ih sqlQ (calls + 1) (by omega) hinv

/-- The loop makes at most one completion-service call per iteration. -/
theorem runAttempts_calls_le (att : Nat → AttemptOutcome) (maxR : Nat) :
    ∀ left sqlQ calls,
      (runAttempts att maxR left sqlQ calls).calls ≤ calls + left := by
  intro left
  induction left with
  | zero => intro sqlQ calls; simp [runAttempts]
  | succ left ih =>
    intro sqlQ calls
    simp only [runAttempts]
    cases att (maxR - (left + 1)) with
    | ok s =>
      dsimp only
      split
      · dsimp only; omega
      · have := ih (some s) (calls + 1); omega
    | promptExn e =>
      dsimp only
      split
      · dsimp only; omega
      · have := ih sqlQ calls; omega
    | llmExn e =>
      dsimp only
      split
      · dsimp only; omega
      · have := ih sqlQ (calls + 1); omega

/-- The loop breaks exactly at the first attempt whose extraction is
non-empty after stripping. -/
theorem runAttempts_breaks (att : Nat → AttemptOutcome) (maxR j : Nat) (s : String)
    (hj : j < maxR) (hja : att j = AttemptOutcome.ok s) (hs : stripStr s ≠ "")
    (hbefore : ∀ k, k < j → ∀ s', att k = AttemptOutcome.ok s' → stripStr s' = "") :
    ∀ left sqlQ calls, left ≤ maxR → maxR - left ≤ j →
      (runAttempts att maxR left sqlQ calls).attempts = j + 1 ∧
      (runAttempts att maxR left sqlQ calls).earlyErr = none ∧
      (runAttempts att maxR left sqlQ calls).sqlQ = some s := by
  intro left
  induction left with
  | zero =>
    intro sqlQ calls h0 hji
    exact absurd hj (by omega)
  | succ left ih =>
    intro sqlQ calls hle hji
    by_cases hij : maxR - (left + 1) = j
    · simp only [runAttempts]
      rw [hij, hja]
      dsimp only
      rw [if_pos hs]
      exact ⟨rfl, rfl, rfl⟩
    · have hlt : maxR - (left + 1) < j := by omega
      simp only [runAttempts]
      cases hatt : att (maxR - (left + 1)) with
      | ok s' =>
        dsimp only
        have hse := hbefore _ hlt s' hatt
        rw [if_neg (by simp [hse])]
        exact ih (some s') (calls + 1) (by omega) (by omega)
      | promptExn e =>
        dsimp only
        rw [if_neg (by omega)]
        exact ih sqlQ calls (by omega) (by omega)
      | llmExn e =>
        dsimp only
        rw [if_neg (by omega)]
        exact ih sqlQ (calls + 1) (by omega) (by omega)

/-!  ## C3 -/

/-- C3 counterexample: when every attempt yields the extraction-failure
sentinel, the session does NOT fail — the loop breaks on the sentinel
(it is non-empty), and the session returns `success = true` with an empty
error list.  The claim predicted `success = false` with at least one
error. -/
theorem sqlgen_sentinel_session_succeeds :
    (sqlgen_generate_sql ValidationLevel.standard DANGEROUS_KEYWORDS witnessParseM
      (fun _ => AttemptOutcome.ok groqSentinel) "show employees" false 2 true true).success
      = true ∧
    (sqlgen_generate_sql ValidationLevel.standard DANGEROUS_KEYWORDS witnessParseM
      (fun _ => AttemptOutcome.ok groqSentinel) "show employees" false 2 true true).errors
      = [] :=
  ⟨by decide, by decide⟩

/-- C3 (amended): `generate_sql` is a total function of the collaborator
behaviour (it never raises), and when every attempt either raises or
extracts only empty SQL, it returns `success = false` with at least one
aggregated error.  (An attempt that yields the non-empty sentinel instead
counts as a successful generation, see the counterexample.) -/
theorem sqlgen_no_sql_yields_failure (level : ValidationLevel)
    (kwOrder : List String) (parseM : String → Option (List Tok))
    (att : Nat → AttemptOutcome) (nlq : String) (includeExp : Bool) (maxR : Nat)
    (validateFlag optimizeFlag : Bool)
    (hemp : ∀ i, i < maxR → ∀ s, att i = AttemptOutcome.ok s → stripStr s = "") :
    (sqlgen_generate_sql level kwOrder parseM att nlq includeExp maxR
      validateFlag optimizeFlag).success = false ∧
    (sqlgen_generate_sql level kwOrder parseM att nlq includeExp maxR
      validateFlag optimizeFlag).errors ≠ [] := by
  have hinv := runAttempts_all_empty att maxR hemp maxR none 0 (le_refl _) (Or.inl rfl)
  unfold sqlgen_generate_sql
  dsimp only
  cases hEE : (runAttempts att maxR maxR none 0).earlyErr with
  | some e => exact ⟨rfl, by simp⟩
  | none =>
    dsimp only
    rcases hinv with h1 | h2 | ⟨s, hs1, hs2⟩
    · exact absurd hEE h1
    · rw [h2]; exact ⟨rfl, by simp⟩
    · rw [hs1]
      dsimp only
      rw [if_pos hs2]
      exact ⟨rfl, by simp⟩

/-- Witness for the amended C3: two attempts, one raising and one
returning the empty string, produce a failed session with an error. -/
theorem sqlgen_no_sql_yields_failure_witness :
    (sqlgen_generate_sql ValidationLevel.standard DANGEROUS_KEYWORDS witnessParseM
      (fun i => if i = 0 then AttemptOutcome.llmExn "boom" else AttemptOutcome.ok "")
      "q" false 2 true true).success = false ∧
    (sqlgen_generate_sql ValidationLevel.standard DANGEROUS_KEYWORDS witnessParseM
      (fun i => if i = 0 then AttemptOutcome.llmExn "boom" else AttemptOutcome.ok "")
      "q" false 2 true true).errors ≠ [] :=
  sqlgen_no_sql_yields_failure ValidationLevel.standard DANGEROUS_KEYWORDS witnessParseM
    (fun i => if i = 0 then AttemptOutcome.llmExn "boom" else AttemptOutcome.ok "")
    "q" false 2 true true
    (by
      intro i hi s hs
      interval_cases i
      · simp at hs
      · simp at hs
        subst hs
        rfl)

/-!  ## C4 -/

/-- C4: retry bound.  For every collaborator behaviour and every flag
combination (including `includeExp = true`), the number of completion
service calls made during one `generate_sql` call is at most
`max_retries`.  (The optional explanation step never reaches its
completion call: line 211 references the undefined name `schema_context`
and raises `NameError` first, which is caught and turned into a
warning.) -/
theorem sqlgen_llm_call_bound (level : ValidationLevel) (kwOrder : List String)
    (parseM : String → Option (List Tok)) (att : Nat → AttemptOutcome)
    (nlq : String) (includeExp : Bool) (maxR : Nat)
    (validateFlag optimizeFlag : Bool) :
    (sqlgen_generate_sql level kwOrder parseM att nlq includeExp maxR
      validateFlag optimizeFlag).llmCalls ≤ maxR := by
  have h := runAttempts_calls_le att maxR maxR none 0
  unfold sqlgen_generate_sql
  dsimp only
  split
  · simpa using h
  · split
    · simpa using h
    · split
      · simpa using h
      · simpa using h

/-!  ## C5 -/

/-- C5 counterexample: an attempt returning the sentinel placeholder
SELECT terminates the loop immediately even though retry budget remains:
with `max_retries = 3` and every attempt yielding the sentinel, the
session stops after attempt 1, stores the sentinel, and reports success. -/
theorem sqlgen_sentinel_terminates_loop :
    (sqlgen_generate_sql ValidationLevel.standard DANGEROUS_KEYWORDS witnessParseM
      (fun _ => AttemptOutcome.ok groqSentinel) "show employees" false 3 true true).attempts
      = 1 ∧
    (sqlgen_generate_sql ValidationLevel.standard DANGEROUS_KEYWORDS witnessParseM
      (fun _ => AttemptOutcome.ok groqSentinel) "show employees" false 3 true true).sql_query
      = groqSentinel ∧
    (sqlgen_generate_sql ValidationLevel.standard DANGEROUS_KEYWORDS witnessParseM
      (fun _ => AttemptOutcome.ok groqSentinel) "show employees" false 3 true true).llmCalls
      = 1 :=
  ⟨by decide, by decide, by decide⟩

/-- C5 (amended): the retry loop exits early exactly on the first attempt
whose extracted SQL is non-empty after stripping — the sentinel included;
the session records `attempts = j + 1` for that first attempt `j`. -/
theorem sqlgen_loop_exits_on_first_nonempty (level : ValidationLevel)
    (kwOrder : List String) (parseM : String → Option (List Tok))
    (att : Nat → AttemptOutcome) (nlq : String) (includeExp : Bool) (maxR : Nat)
    (validateFlag optimizeFlag : Bool) (j : Nat) (s : String)
    (hj : j < maxR) (hja : att j = AttemptOutcome.ok s) (hs : stripStr s ≠ "")
    (hbefore : ∀ k, k < j → ∀ s', att k = AttemptOutcome.ok s' → stripStr s' = "") :
    (sqlgen_generate_sql level kwOrder parseM att nlq includeExp maxR
      validateFlag optimizeFlag).attempts = j + 1 := by
  have h := runAttempts_breaks att maxR j s hj hja hs hbefore maxR none 0
    (le_refl _) (by omega)
  unfold sqlgen_generate_sql
  dsimp only
  split
  · exact h.1
  · split
    · exact h.1
    · split
      · exact h.1
      · exact h.1

/-- Witness for the amended C5: the first non-empty extraction arrives on
attempt index 1 (the second attempt), so the session records 2 attempts. -/
theorem sqlgen_loop_exits_on_first_nonempty_witness :
    (sqlgen_generate_sql ValidationLevel.standard DANGEROUS_KEYWORDS witnessParseM
      (fun i => if i = 0 then AttemptOutcome.ok "" else AttemptOutcome.ok groqSentinel)
      "q" false 3 true true).attempts = 2 :=
  sqlgen_loop_exits_on_first_nonempty ValidationLevel.standard DANGEROUS_KEYWORDS
    witnessParseM
    (fun i => if i = 0 then AttemptOutcome.ok "" else AttemptOutcome.ok groqSentinel)
    "q" false 3 true true 1 groqSentinel (by omega) (by decide) (by decide)
    (by
      intro k hk s' hs'
      interval_cases k
      simp at hs'
      rw [← hs']
      rfl)

/-!  ## C6 -/

/-- C6 counterexample: the session stores the stub optimization result
(empty applied-rules list, unmodified query) even for a candidate on which
the `SQLOptimizer` rule catalog would rewrite INNER JOIN and record an
applied rule: the optimizer is not invoked by `generate_sql`. -/
theorem sqlgen_optimizer_not_run :
    (sqlgen_generate_sql ValidationLevel.standard DANGEROUS_KEYWORDS witnessParseM
      (fun _ => AttemptOutcome.ok innerJoinSQL) "q" false 3 true true).sql_query
      = innerJoinSQL ∧
    (sqlgen_generate_sql ValidationLevel.standard DANGEROUS_KEYWORDS witnessParseM
      (fun _ => AttemptOutcome.ok innerJoinSQL) "q" false 3 true true).optimization_result
      = some ⟨innerJoinSQL, [], []⟩ ∧
    (optimize_query id OptimizationLevel.standard true innerJoinSQL).optimizations_applied
      = ["JOIN optimization"] ∧
    (optimize_query id OptimizationLevel.standard true innerJoinSQL).optimized_query
      ≠ innerJoinSQL :=
  ⟨by decide, by decide, by decide, by decide⟩

/-- C6 (amended): with optimization enabled, every successful session
stores the fixed stub `{optimized_query := final sql,
optimizations_applied := [], warnings := []}`; the optimizer is never
invoked, so in particular no optimizer failure can affect the session. -/
theorem sqlgen_optimization_result_stub (level : ValidationLevel)
    (kwOrder : List String) (parseM : String → Option (List Tok))
    (att : Nat → AttemptOutcome) (nlq : String) (includeExp : Bool) (maxR : Nat)
    (validateFlag optimizeFlag : Bool) (hopt : optimizeFlag = true) :
    (sqlgen_generate_sql level kwOrder parseM att nlq includeExp maxR
      validateFlag optimizeFlag).success = false ∨
    (sqlgen_generate_sql level kwOrder parseM att nlq includeExp maxR
      validateFlag optimizeFlag).optimization_result =
      some ⟨(sqlgen_generate_sql level kwOrder parseM att nlq includeExp maxR
        validateFlag optimizeFlag).sql_query, [], []⟩ := by
  subst hopt
  unfold sqlgen_generate_sql
  dsimp only
  split
  · left; rfl
  · split
    · left; rfl
    · split
      · left; rfl
      · right; rfl

/-- Witness for the amended C6 at a concrete successful session. -/
theorem sqlgen_optimization_result_stub_witness :
    (sqlgen_generate_sql ValidationLevel.standard DANGEROUS_KEYWORDS witnessParseM
      (fun _ => AttemptOutcome.ok groqSentinel) "q" false 1 true true).success = false ∨
    (sqlgen_generate_sql ValidationLevel.standard DANGEROUS_KEYWORDS witnessParseM
      (fun _ => AttemptOutcome.ok groqSentinel) "q" false 1 true true).optimization_result =
      some ⟨(sqlgen_generate_sql ValidationLevel.standard DANGEROUS_KEYWORDS witnessParseM
        (fun _ => AttemptOutcome.ok groqSentinel) "q" false 1 true true).sql_query, [], []⟩ :=
  sqlgen_optimization_result_stub ValidationLevel.standard DANGEROUS_KEYWORDS
    witnessParseM (fun _ => AttemptOutcome.ok groqSentinel) "q" false 1 true true rfl

/-!  ## Optimizer rule lemmas and C8 -/

theorem optimize_select_star_nm (q : String) :
    (optimize_select_star q).modified = false := by
  unfold optimize_select_star
  split <;> rfl

theorem optimize_joins_nm (q : String)
    (h1 : containsStr (upperStr q) "INNER JOIN" = false) :
    (optimize_joins q).modified = false := by
  unfold optimize_joins
  dsimp only
  rw [h1]
  rfl

theorem optimize_where_clauses_nm (q : String) :
    (optimize_where_clauses q).modified = false := rfl

theorem optimize_subqueries_nm (q : String) :
    (optimize_subqueries q).modified = false := rfl

theorem optimize_aggregations_nm (q : String) :
    (optimize_aggregations q).modified = false := rfl

theorem optimize_ordering_nm (q : String) :
    (optimize_ordering q).modified = false := by
  unfold optimize_ordering
  dsimp only
  split <;> rfl

theorem optimize_case_statements_nm (q : String) :
    (optimize_case_statements q).modified = false := rfl

theorem add_query_hints_nm (level : OptimizationLevel) (q : String) :
    (add_query_hints level q).modified = false := rfl

theorem optimize_in_clauses_nm (q : String) :
    (optimize_in_clauses q).modified = false := rfl

theorem optimize_exists_clauses_nm (q : String)
    (h2 : existsSelectStarSearch q = false) :
    (optimize_exists_clauses q).modified = false := by
  unfold optimize_exists_clauses
  rw [h2]
  split <;> rfl

/-- A catalog of rules none of which modifies `q` folds to the identity. -/
theorem optRuleStep_fold_id (q : String) (l : List (String → RuleOut))
    (h : ∀ r ∈ l, (r q).modified = false) :
    l.foldl optRuleStep (q, [], []) =
      ((q, [], []) : String × List String × List String) := by
  induction l with
  | nil => rfl
  | cons rule rest ih =>
    simp only [List.foldl_cons]
    have hstep : optRuleStep (q, [], []) rule = (q, [], []) := by
      unfold optRuleStep
      dsimp only
      rw [h rule (List.mem_cons_self _ _)]
      rfl
    rw [hstep]
    exact ih (fun r hr => h r (List.mem_cons_of_mem _ hr))

/-- When neither rewriting rule fires on `q`, the whole catalog leaves the
state untouched: the result is `fmt q` with an empty applied list. -/
theorem optimize_query_no_rule_fires (fmt : String → String)
    (level : OptimizationLevel) (q : String)
    (h1 : containsStr (upperStr q) "INNER JOIN" = false)
    (h2 : existsSelectStarSearch q = false) :
    (optimize_query fmt level true q).optimized_query = fmt q ∧
    (optimize_query fmt level true q).optimizations_applied = [] := by
  have hall : ∀ r ∈ optimizerRules level, (r q).modified = false := by
    intro r hr
    simp only [optimizerRules, List.mem_cons, List.not_mem_nil, or_false] at hr
    rcases hr with h | h | h | h | h | h | h | h | h | h <;> subst h
    · exact optimize_select_star_nm q
    · exact optimize_joins_nm q h1
    · exact optimize_where_clauses_nm q
    · exact optimize_subqueries_nm q
    · exact optimize_aggregations_nm q
    · exact optimize_ordering_nm q
    · exact optimize_case_statements_nm q
    · exact add_query_hints_nm level q
    · exact optimize_in_clauses_nm q
    · exact optimize_exists_clauses_nm q h2
  unfold optimize_query
  dsimp only
  rw [optRuleStep_fold_id q (optimizerRules level) hall]
  exact ⟨rfl, rfl⟩

/-- C8 counterexample: on `SELECT a FROM t INNER INNER JOIN u ON ...` the
INNER JOIN rewrite leaves a fresh `INNER JOIN` behind, so a second pass
rewrites again: the optimized text changes and the second pass's
applied-rules list is non-empty — `optimize` is not idempotent. -/
theorem optimize_query_not_idempotent :
    (optimize_query id OptimizationLevel.standard true
      (optimize_query id OptimizationLevel.standard true doubleInnerSQL).optimized_query).optimized_query
      ≠ (optimize_query id OptimizationLevel.standard true doubleInnerSQL).optimized_query ∧
    (optimize_query id OptimizationLevel.standard true
      (optimize_query id OptimizationLevel.standard true doubleInnerSQL).optimized_query).optimizations_applied
      ≠ [] :=
  ⟨by decide, by decide⟩

/-- C8 (amended): a second optimizer pass is stable whenever the first
pass's output contains no INNER JOIN text and no EXISTS(SELECT \x2a)
pattern and the formatter is stable on that output: the second pass
returns the same optimized text and applies no rules. -/
theorem optimize_query_second_pass_stable (fmt : String → String)
    (level : OptimizationLevel) (sql : String)
    (h1 : containsStr
        (upperStr ((optimize_query fmt level true sql).optimized_query))
        "INNER JOIN" = false)
    (h2 : existsSelectStarSearch
        ((optimize_query fmt level true sql).optimized_query) = false)
    (h3 : fmt ((optimize_query fmt level true sql).optimized_query) =
        (optimize_query fmt level true sql).optimized_query) :
    (optimize_query fmt level true
        ((optimize_query fmt level true sql).optimized_query)).optimized_query
      = (optimize_query fmt level true sql).optimized_query ∧
    (optimize_query fmt level true
        ((optimize_query fmt level true sql).optimized_query)).optimizations_applied
      = [] := by
  have h := optimize_query_no_rule_fires fmt level
    ((optimize_query fmt level true sql).optimized_query) h1 h2
  exact ⟨h.1.trans h3, h.2⟩

/-- Witness for the amended C8 at `fmt = id` and a query on which no rule
fires. -/
theorem optimize_query_second_pass_stable_witness :
    (optimize_query id OptimizationLevel.standard true
        ((optimize_query id OptimizationLevel.standard true plainJoinSQL).optimized_query)).optimized_query
      = (optimize_query id OptimizationLevel.standard true plainJoinSQL).optimized_query ∧
    (optimize_query id OptimizationLevel.standard true
        ((optimize_query id OptimizationLevel.standard true plainJoinSQL).optimized_query)).optimizations_applied
      = [] :=
  optimize_query_second_pass_stable id OptimizationLevel.standard plainJoinSQL
    (by decide) (by decide) rfl

/-!  ## Extractor and adapter lemmas, C9 and C10 -/

theorem upperStr_append (s t : String) :
    upperStr (s ++ t) = upperStr s ++ upperStr t := by
  cases s with | mk a =>
  cases t with | mk b =>
  exact congrArg String.mk (List.map_append Char.toUpper a b)

theorem startsWith_append_left (s t pre : String) (h : startsWith s pre = true) :
    startsWith (s ++ t) pre = true := by
  unfold startsWith at *
  rw [ List.isPrefixOf_iff_prefix] at *
  rw [String.data_append]
  exact h.trans (List.prefix_append s.data t.data)

theorem endsWith_append_right (s t suf : String) (h : endsWith t suf = true) :
    endsWith (s ++ t) suf = true := by
  unfold endsWith at *
  rw [List.isSuffixOf_iff_suffix] at *
  rw [String.data_append]
  exact h.trans (List.suffix_append s.data t.data)

theorem groqErrSql_startsWith (msg : String) :
    startsWith (upperStr (groqErrSql msg)) "SELECT" = true := by
  unfold groqErrSql
  rw [upperStr_append, upperStr_append, upperStr_append, upperStr_append]
  apply startsWith_append_left
  apply startsWith_append_left
  apply startsWith_append_left
  apply startsWith_append_left
  decide

theorem groqErrSql_endsWith (msg : String) :
    endsWith (groqErrSql msg) ";" = true := by
  unfold groqErrSql
  apply endsWith_append_right
  decide

theorem isWsChar_eq_false_of_toUpper_S (c : Char) (h : c.toUpper = 'S') :
    isWsChar c = false := by
  by_contra hw
  rw [Bool.not_eq_false] at hw
  simp only [isWsChar, Bool.or_eq_true, decide_eq_true_eq] at hw
  rcases hw with ((((h1 | h1) | h1) | h1) | h1) | h1 <;> subst h1 <;>
    exact absurd h (by decide)

/-- A string whose upper-casing starts with SELECT cannot strip to the
empty string (its first character is S or s, not whitespace). -/
theorem stripStr_ne_empty_of_upper_select (s : String)
    (h : startsWith (upperStr s) "SELECT" = true) : stripStr s ≠ "" := by
  unfold startsWith upperStr at h
  cases hd : s.data with
  | nil => rw [hd] at h; simp [List.isPrefixOf] at h
  | cons c rest =>
    rw [hd] at h
    simp only [List.map_cons, List.isPrefixOf, Bool.and_eq_true, beq_iff_eq] at h
    have hS : c.toUpper = 'S' := h.1.symm
    have hws := isWsChar_eq_false_of_toUpper_S c hS
    unfold stripStr trimWs
    rw [hd]
    rw [List.dropWhile_cons_of_neg (by simp [hws])]
    intro hcontra
    have : ((c :: rest).reverse.dropWhile isWsChar).reverse = [] := by
      have := congrArg String.data hcontra
      simpa using this
    rw [List.reverse_eq_nil_iff] at this
    rw [List.dropWhile_eq_nil_iff] at this
    have hc := this c (by simp)
    rw [hws] at hc
    cases hc

/-- The final append-a-semicolon step yields the empty string or a string
ending in a semicolon. -/
theorem append_semicolon_ends (f : String) :
    (if f ≠ "" ∧ ¬ endsWith f ";" = true then f ++ ";" else f) = "" ∨
    endsWith (if f ≠ "" ∧ ¬ endsWith f ";" = true then f ++ ";" else f) ";" = true := by
  split
  · right
    apply endsWith_append_right
    decide
  · rename_i hc
    push_neg at hc
    by_cases hz : f = ""
    · left; exact hz
    · right; exact hc hz

theorem extractCore_ends (resp : String) :
    extractCore resp = "" ∨ endsWith (extractCore resp) ";" = true := by
  unfold extractCore
  dsimp only
  exact append_semicolon_ends _

/-- The "looks like SELECT" facts of the extractor, shared by C9 and C10:
the returned text always upper-starts with SELECT, has length at least
15, ends with a semicolon, and equals the sentinel whenever the cleaned
text fails the guard. -/
theorem extract_startsWith_select (resp : String) :
    startsWith (upperStr (extract_sql_from_groq_response resp)) "SELECT" = true := by
  unfold extract_sql_from_groq_response
  dsimp only
  split
  · decide
  · rename_i hcond
    push_neg at hcond
    exact hcond.2.2

theorem extract_min_length (resp : String) :
    15 ≤ (extract_sql_from_groq_response resp).length := by
  unfold extract_sql_from_groq_response
  dsimp only
  split
  · decide
  · rename_i hcond
    push_neg at hcond
    omega

theorem extract_sentinel_on_fail (resp : String)
    (h : extractCore resp = "" ∨ (extractCore resp).length < 15 ∨
      startsWith (upperStr (extractCore resp)) "SELECT" = false) :
    extract_sql_from_groq_response resp = groqSentinel := by
  unfold extract_sql_from_groq_response
  dsimp only
  split
  · rfl
  · rename_i hcond
    push_neg at hcond
    rcases h with h | h | h
    · exact absurd h hcond.1
    · omega
    · rw [hcond.2.2] at h
      cases h

theorem extract_endsWith_semicolon (resp : String) :
    endsWith (extract_sql_from_groq_response resp) ";" = true := by
  unfold extract_sql_from_groq_response
  dsimp only
  split
  · decide
  · rename_i hcond
    push_neg at hcond
    rcases extractCore_ends resp with h | h
    · exact absurd h hcond.1
    · exact h

/-!  ## C9 -/

/-- C9: extractor safety.  `extract` is a total function of the raw model
output; its result always passes the "looks like SELECT" check (non-empty,
length at least 15, upper-cased text starting with SELECT); and whenever
the cleaned text fails that check the fixed sentinel is returned
instead. -/
theorem extract_sql_safety (resp : String) :
    extract_sql_from_groq_response resp ≠ "" ∧
    startsWith (upperStr (extract_sql_from_groq_response resp)) "SELECT" = true ∧
    15 ≤ (extract_sql_from_groq_response resp).length ∧
    ((extractCore resp = "" ∨ (extractCore resp).length < 15 ∨
        startsWith (upperStr (extractCore resp)) "SELECT" = false) →
      extract_sql_from_groq_response resp = groqSentinel) := by
  refine ⟨?_, extract_startsWith_select resp, extract_min_length resp,
    extract_sentinel_on_fail resp⟩
  intro h
  have := extract_min_length resp
  rw [h] at this
  simp [String.length] at this

/-!  ## C10 -/

/-- C10: for every API-key state and every outcome of the HTTP completion
call (success with any body shape, non-200 status, timeout, or any other
raised exception), `GroqAdapter.generate_sql` returns a non-empty string
whose upper-casing starts with SELECT and which ends with a semicolon and
does not strip to the empty string — every failure is reported in-band.
Consequently the orchestrator's `if sql_query and sql_query.strip()`
break fires on the first attempt and its empty-result retry branch is
unreachable with this adapter. -/
theorem groq_generate_sql_inband_errors (apiKey : Option String)
    (timeout : Nat) (outcome : GroqHttp) :
    groq_generate_sql apiKey timeout outcome ≠ "" ∧
    startsWith (upperStr (groq_generate_sql apiKey timeout outcome)) "SELECT" = true ∧
    endsWith (groq_generate_sql apiKey timeout outcome) ";" = true ∧
    stripStr (groq_generate_sql apiKey timeout outcome) ≠ "" := by
  have main : startsWith (upperStr (groq_generate_sql apiKey timeout outcome)) "SELECT" = true ∧
      endsWith (groq_generate_sql apiKey timeout outcome) ";" = true := by
    unfold groq_generate_sql
    cases apiKey with
    | none => exact ⟨groqErrSql_startsWith _, groqErrSql_endsWith _⟩
    | some key =>
      cases outcome with
      | success r =>
        cases r with
        | noChoices => exact ⟨groqErrSql_startsWith _, groqErrSql_endsWith _⟩
        | badChoice => exact ⟨groqErrSql_startsWith _, groqErrSql_endsWith _⟩
        | content sc =>
          dsimp only
          split
          · exact ⟨groqErrSql_startsWith _, groqErrSql_endsWith _⟩
          · exact ⟨extract_startsWith_select sc, extract_endsWith_semicolon sc⟩
      | httpError code detail =>
        exact ⟨groqErrSql_startsWith _, groqErrSql_endsWith _⟩
      | timeoutExc => exact ⟨groqErrSql_startsWith _, groqErrSql_endsWith _⟩
      | otherExc msg => exact ⟨groqErrSql_startsWith _, groqErrSql_endsWith _⟩
  have hne : groq_generate_sql apiKey timeout outcome ≠ "" := by
    intro h
    have := main.1
    rw [h] at this
    simp [startsWith, upperStr, List.isPrefixOf] at this
  exact ⟨hne, main.1, main.2, stripStr_ne_empty_of_upper_select _ main.1⟩

/-- Witness for C4 at a concrete collaborator behaviour. -/
theorem sqlgen_llm_call_bound_witness :
    (sqlgen_generate_sql ValidationLevel.standard DANGEROUS_KEYWORDS witnessParseM
      (fun _ => AttemptOutcome.ok groqSentinel) "q" true 3 true true).llmCalls ≤ 3 :=
  sqlgen_llm_call_bound ValidationLevel.standard DANGEROUS_KEYWORDS witnessParseM
    (fun _ => AttemptOutcome.ok groqSentinel) "q" true 3 true true

/-- Witness for C9 at a concrete raw model output with no SQL content. -/
theorem extract_sql_safety_witness :
    extract_sql_from_groq_response "I cannot help with that." ≠ "" ∧
    startsWith (upperStr (extract_sql_from_groq_response "I cannot help with that."))
      "SELECT" = true ∧
    15 ≤ (extract_sql_from_groq_response "I cannot help with that.").length ∧
    ((extractCore "I cannot help with that." = "" ∨
        (extractCore "I cannot help with that.").length < 15 ∨
        startsWith (upperStr (extractCore "I cannot help with that.")) "SELECT" = false) →
      extract_sql_from_groq_response "I cannot help with that." = groqSentinel) :=
  extract_sql_safety "I cannot help with that."

/-- Witness for C10 at a concrete outcome (an HTTP timeout). -/
theorem groq_generate_sql_inband_errors_witness :
    groq_generate_sql (some "key") 30 GroqHttp.timeoutExc ≠ "" ∧
    startsWith (upperStr (groq_generate_sql (some "key") 30 GroqHttp.timeoutExc))
      "SELECT" = true ∧
    endsWith (groq_generate_sql (some "key") 30 GroqHttp.timeoutExc) ";" = true ∧
    stripStr (groq_generate_sql (some "key") 30 GroqHttp.timeoutExc) ≠ "" :=
  groq_generate_sql_inband_errors (some "key") 30 GroqHttp.timeoutExc

end NL2MySQL
